import Mathlib

/-!
Shallow embedding of the PFA-Prep progression & scheduling engine
(`src/fitness_calculator.py`, `src/progression_engine.py`,
`src/supplement_scheduler.py`, `src/meal_generator.py`, `src/time_utils.py`)
together with proofs of the specification's claims about it.

Conventions used throughout:
* Python `float` arithmetic is modelled exactly over `ℚ`;
* Python strings are Lean `String`s; where character-level reasoning is
  needed the underlying `List Char` is used;
* Python functions that can raise are modelled in `Except PyErr` (or
  `Option` for local parsing helpers);
* Python's global `random` module is modelled by an explicit stream
  `g : ℕ → ℕ` of raw draws together with a cursor that is threaded through
  the computation; `random.choice xs` with draw `r` picks `xs[r % len xs]`.
-/

/-- Errors that the Python code can raise: `ValueError` (with its message)
and `UnboundLocalError` (with the offending variable name). -/
inductive PyErr where
  | valueError (msg : String)
  | unboundLocal (var : String)
  | keyError (key : String)
deriving DecidableEq, Repr

/-- Python `int(x)` on a float/rational: truncation toward zero. -/
def pyInt (q : ℚ) : ℤ := if q < 0 then ⌈q⌉ else ⌊q⌋

/-- Python `round(x)` on a float/rational: round half to even. -/
def pyRound (q : ℚ) : ℤ :=
  let f : ℤ := ⌊q⌋
  let r : ℚ := q - f
  if r < 1/2 then f
  else if 1/2 < r then f + 1
  else if Even f then f else f + 1

/-- Python `range(start, stop, step)` for a positive step:
`r[i] = start + step*i` for all `i ≥ 0` with `r[i] < stop`. -/
def pyRange (start stop step : ℕ) : List ℕ :=
  List.range' start ((stop - start + step - 1) / step) step

/-- The decimal digit character for a value `0 ≤ k ≤ 9`. -/
def digitChar : ℕ → Char
  | 0 => '0' | 1 => '1' | 2 => '2' | 3 => '3' | 4 => '4'
  | 5 => '5' | 6 => '6' | 7 => '7' | 8 => '8' | 9 => '9'
  | _ => '*'

/-- Numeric value of a decimal digit character. -/
def digitVal (c : Char) : ℕ := c.toNat - 48

/-- Decimal representation of a natural number (Python `str(n)` for
`n ≥ 0`): most significant digit first, no leading zeros. -/
def natToDigits (n : ℕ) : List Char :=
  if h : n < 10 then [digitChar n]
  else natToDigits (n / 10) ++ [digitChar (n % 10)]
decreasing_by exact Nat.div_lt_self (by omega) (by omega)

/-- Decimal representation of an integer (Python `str(n)`). -/
def intToDigits (n : ℤ) : List Char :=
  if n < 0 then '-' :: natToDigits (-n).toNat else natToDigits n.toNat

/-- Value of a digit string (what Python `int(s)` computes on a string of
decimal digits). -/
def parseDigits (cs : List Char) : ℕ :=
  cs.foldl (fun acc c => 10 * acc + digitVal c) 0

/-- Python `int(s)`: succeeds only on a nonempty all-digit string
(sign/whitespace forms are out of scope for the embedded call sites). -/
def parseDigitsOpt (cs : List Char) : Option ℕ :=
  if cs ≠ [] ∧ cs.all Char.isDigit then some (parseDigits cs) else none

/-- Python `s.split(":")` at character level. -/
def splitOnColon : List Char → List (List Char)
  | [] => [[]]
  | c :: rest =>
    if c = ':' then [] :: splitOnColon rest
    else
      match splitOnColon rest with
      | [] => [[c]]
      | g :: gs => (c :: g) :: gs

/-- `time_utils.parse_time_to_seconds`: convert `"MM:SS"` (or a bare
number string) to total seconds; `none` models the `ValueError` that
Python's `int`/tuple-unpacking raise on malformed input. -/
def parse_time_to_seconds (s : String) : Option ℕ :=
  if ':' ∈ s.data then
    match splitOnColon s.data with
    | [a, b] => do
      let m ← parseDigitsOpt a
      let sec ← parseDigitsOpt b
      pure (m * 60 + sec)
    | _ => none
  else parseDigitsOpt s.data

/-- Zero-padding of the seconds field: Python `f"{seconds:02d}"` for
`seconds ≥ 0`. -/
def pad2 (n : ℕ) : List Char :=
  if n < 10 then '0' :: natToDigits n else natToDigits n

/-- `time_utils.seconds_to_time_string`: `f"{total//60}:{total%60:02d}"`,
with Python floor-division semantics on integers (Lean's `Int` `/` and `%`
are E-division, which agrees with Python `//`/`%` for the positive
divisor `60`). -/
def seconds_to_time_string (total : ℤ) : String :=
  ⟨intToDigits (total / 60) ++ ':' :: pad2 (total % 60).toNat⟩

/-- The canonical well-formed `"M:SS"` string for `m` minutes and `sec`
seconds (minutes without leading zeros, seconds two digits). -/
def timeStr (m sec : ℕ) : String :=
  ⟨natToDigits m ++ ':' :: pad2 sec⟩

section DigitLemmas

theorem natToDigits_eq (n : ℕ) :
    natToDigits n =
      if n < 10 then [digitChar n]
      else natToDigits (n / 10) ++ [digitChar (n % 10)] := by
  by_cases h : n < 10 <;> rw [natToDigits] <;> simp [h]

theorem natToDigits_ne_nil (n : ℕ) : natToDigits n ≠ [] := by
  rw [natToDigits_eq]
  split
  · simp
  · simp

theorem digitChar_isDigit {k : ℕ} (h : k < 10) : (digitChar k).isDigit = true := by
  interval_cases k <;> decide

theorem digitChar_ne_colon {k : ℕ} (h : k < 10) : digitChar k ≠ ':' := by
  interval_cases k <;> decide

theorem digitVal_digitChar {k : ℕ} (h : k < 10) : digitVal (digitChar k) = k := by
  interval_cases k <;> decide

theorem natToDigits_all_digit (n : ℕ) :
    ∀ c ∈ natToDigits n, c.isDigit = true := by
  induction n using Nat.strong_induction_on with
  | _ n ih =>
    rw [natToDigits_eq]
    split
    · next h =>
      intro c hc
      simp only [List.mem_singleton] at hc
      subst hc
      exact digitChar_isDigit h
    · next h =>
      intro c hc
      rcases List.mem_append.mp hc with h1 | h2
      · exact ih (n / 10) (Nat.div_lt_self (by omega) (by omega)) c h1
      · simp only [List.mem_singleton] at h2
        subst h2
        exact digitChar_isDigit (Nat.mod_lt _ (by omega))

theorem natToDigits_no_colon (n : ℕ) :
    ∀ c ∈ natToDigits n, c ≠ ':' := by
  intro c hc
  have := natToDigits_all_digit n c hc
  intro h
  subst h
  simp [Char.isDigit] at this

theorem parseDigits_append (cs : List Char) (c : Char) :
    parseDigits (cs ++ [c]) = 10 * parseDigits cs + digitVal c := by
  simp [parseDigits, List.foldl_append]

theorem parseDigits_natToDigits (n : ℕ) : parseDigits (natToDigits n) = n := by
  induction n using Nat.strong_induction_on with
  | _ n ih =>
    rw [natToDigits_eq]
    split
    · next h =>
      simp only [parseDigits, List.foldl_cons, List.foldl_nil]
      rw [digitVal_digitChar h]
      omega
    · next h =>
      rw [parseDigits_append, ih (n / 10) (Nat.div_lt_self (by omega) (by omega)),
        digitVal_digitChar (Nat.mod_lt _ (by omega))]
      omega

theorem parseDigitsOpt_natToDigits (n : ℕ) :
    parseDigitsOpt (natToDigits n) = some n := by
  unfold parseDigitsOpt
  rw [if_pos]
  · rw [parseDigits_natToDigits]
  · exact ⟨natToDigits_ne_nil n, List.all_eq_true.mpr (natToDigits_all_digit n)⟩

theorem pad2_no_colon (n : ℕ) : ∀ c ∈ pad2 n, c ≠ ':' := by
  unfold pad2
  split
  · intro c hc
    rcases List.mem_cons.mp hc with h | h
    · subst h; decide
    · exact natToDigits_no_colon n c h
  · exact natToDigits_no_colon n

theorem parseDigitsOpt_pad2 (n : ℕ) : parseDigitsOpt (pad2 n) = some n := by
  unfold pad2
  split
  · unfold parseDigitsOpt
    rw [if_pos]
    · have : parseDigits ('0' :: natToDigits n) = parseDigits (natToDigits n) := by
        simp [parseDigits, digitVal]
      rw [this, parseDigits_natToDigits]
    · constructor
      · simp
      · rw [List.all_eq_true]
        intro c hc
        rcases List.mem_cons.mp hc with h | h
        · subst h; decide
        · exact natToDigits_all_digit n c h
  · exact parseDigitsOpt_natToDigits n

theorem splitOnColon_cons (c : Char) (rest : List Char) :
    splitOnColon (c :: rest) =
      if c = ':' then [] :: splitOnColon rest
      else
        match splitOnColon rest with
        | [] => [[c]]
        | g :: gs => (c :: g) :: gs := rfl

theorem splitOnColon_ne_nil (cs : List Char) : splitOnColon cs ≠ [] := by
  induction cs with
  | nil => simp [splitOnColon]
  | cons c rest ih =>
    unfold splitOnColon
    split
    · simp
    · cases h : splitOnColon rest with
      | nil => simp
      | cons g gs => simp

theorem splitOnColon_no_colon (cs : List Char) (h : ∀ c ∈ cs, c ≠ ':') :
    splitOnColon cs = [cs] := by
  induction cs with
  | nil => rfl
  | cons c rest ih =>
    unfold splitOnColon
    rw [if_neg (h c (List.mem_cons_self c rest))]
    rw [ih fun x hx => h x (List.mem_cons_of_mem c hx)]

theorem splitOnColon_append (a b : List Char) (h : ∀ c ∈ a, c ≠ ':') :
    splitOnColon (a ++ ':' :: b) = a :: splitOnColon b := by
  induction a with
  | nil => simp [splitOnColon]
  | cons c rest ih =>
    simp only [List.cons_append]
    rw [splitOnColon_cons, if_neg (h c (List.mem_cons_self c rest)),
      ih fun x hx => h x (List.mem_cons_of_mem c hx)]

end DigitLemmas

section RoundTrip

theorem intToDigits_natCast (m : ℕ) : intToDigits (m : ℤ) = natToDigits m := by
  simp [intToDigits]

theorem parse_timeStr (m sec : ℕ) :
    parse_time_to_seconds (timeStr m sec) = some (m * 60 + sec) := by
  unfold parse_time_to_seconds timeStr
  rw [if_pos]
  · rw [show (natToDigits m ++ ':' :: pad2 sec : List Char) =
        natToDigits m ++ ':' :: pad2 sec from rfl]
    rw [splitOnColon_append _ _ (natToDigits_no_colon m),
      splitOnColon_no_colon _ (pad2_no_colon sec)]
    simp [parseDigitsOpt_natToDigits, parseDigitsOpt_pad2]
  · exact List.mem_append.mpr (Or.inr (List.mem_cons_self _ _))

theorem seconds_to_time_string_natCast (m sec : ℕ) (h : sec < 60) :
    seconds_to_time_string ((m * 60 + sec : ℕ) : ℤ) = timeStr m sec := by
  unfold seconds_to_time_string timeStr
  have hc : ((m * 60 + sec : ℕ) : ℤ) = (m : ℤ) * 60 + (sec : ℤ) := by
    push_cast
    ring
  have h1 : ((m : ℤ) * 60 + (sec : ℤ)) / 60 = (m : ℤ) := by omega
  have h2 : (((m : ℤ) * 60 + (sec : ℤ)) % 60).toNat = sec := by omega
  rw [hc, h1, h2, intToDigits_natCast]

/-- C9: for every well-formed time string `s` of the form `"M:SS"` with
`seconds < 60` (minutes printed without leading zeros, seconds zero-padded
to two digits), `seconds_to_time_string (parse_time_to_seconds s) = s`. -/
theorem c9_time_string_round_trip (s : String) (m sec : ℕ)
    (hsec : sec < 60) (hs : s = timeStr m sec) :
    ∃ t : ℕ, parse_time_to_seconds s = some t ∧
      seconds_to_time_string (t : ℤ) = s := by
  subst hs
  exact ⟨m * 60 + sec, parse_timeStr m sec, seconds_to_time_string_natCast m sec hsec⟩

/-- Witness for C9 at the concrete input `"12:05"`. -/
theorem c9_time_string_round_trip_witness :
    ∃ t : ℕ, parse_time_to_seconds (timeStr 12 5) = some t ∧
      seconds_to_time_string (t : ℤ) = timeStr 12 5 :=
  c9_time_string_round_trip (timeStr 12 5) 12 5 (by decide) rfl

end RoundTrip

/-!
## Fitness progression calculator (`src/fitness_calculator.py`)
-/

/-- One of the three metric dictionaries of the fitness configuration
(`baseline` / `goals` / `pfa_standards`): a `"MM:SS"` run time string and
integer rep counts. -/
structure FitnessMetrics where
  run_time : String
  pushups : ℤ
  situps : ℤ
deriving Repr

/-- `fitness_config`: baseline, goals and PFA standards. -/
structure FitnessConfig where
  baseline : FitnessMetrics
  goals : FitnessMetrics
  pfa_standards : FitnessMetrics
deriving Repr

/-- Look up a rep-count metric by its Python dictionary key; `none`
models the `KeyError` raised on an unknown exercise name. -/
def FitnessMetrics.repMetric (m : FitnessMetrics) : String → Option ℤ
  | "pushups" => some m.pushups
  | "situps" => some m.situps
  | _ => none

/-- `FitnessProgressionCalculator.__init__` state. `buffer_weeks` models
the Python dict accessed only through `.get(key, 0)`, so a missing key is
the value `0`. `warned_run_goal` is the `_warned_run_goal` instance flag
(initially `False`). -/
structure FitnessProgressionCalculator where
  fitness_config : FitnessConfig
  timeline_weeks : ℕ
  buffer_weeks : String → ℕ
  warned_run_goal : Bool

/-- The shared loop of `calculate_run_progression` and
`calculate_strength_progression`: starting from `current`, while the week
index is below `effective_weeks` do `current += delta`, then append
`round(current)`; run `fuel` iterations starting at week index `week`.
(The run version's `current -= weekly_improvement` is the instance
`delta = -weekly_improvement`.) -/
def accumLoop (delta : ℚ) (eff : ℕ) : ℕ → ℕ → ℚ → List ℤ
  | _, 0, _ => []
  | week, fuel + 1, current =>
    let current' := if week < eff then current + delta else current
    pyRound current' :: accumLoop delta eff (week + 1) fuel current'

/-- Result of one call of `calculate_run_progression`: the returned list
(or raised error), the post-call value of the `_warned_run_goal` flag,
and whether the goal-adjustment warning was printed during this call. -/
structure RunProgressionResult where
  result : Except PyErr (List String)
  warned_run_goal : Bool
  logged : Bool

/-- `FitnessProgressionCalculator.calculate_run_progression`. -/
def calculate_run_progression (c : FitnessProgressionCalculator) :
    RunProgressionResult :=
  match parse_time_to_seconds c.fitness_config.baseline.run_time,
        parse_time_to_seconds c.fitness_config.goals.run_time,
        parse_time_to_seconds c.fitness_config.pfa_standards.run_time with
  | some baseline_seconds, some goal_seconds, some standard_seconds =>
    -- goal worse than standard: warn once, clamp goal to the standard
    let warn : Bool := decide (goal_seconds > standard_seconds)
    let logged : Bool := warn && !c.warned_run_goal
    let warned' : Bool := c.warned_run_goal || warn
    let goal_eff : ℕ := if warn then standard_seconds else goal_seconds
    let buffer := c.buffer_weeks "run"
    if c.timeline_weeks ≤ buffer then
      ⟨.error (.valueError "Buffer weeks exceed total timeline weeks"),
        warned', logged⟩
    else
      let eff := c.timeline_weeks - buffer
      let weekly_improvement : ℚ :=
        ((baseline_seconds : ℚ) - (goal_eff : ℚ)) / (eff : ℚ)
      ⟨.ok ((accumLoop (-weekly_improvement) eff 0 c.timeline_weeks
          (baseline_seconds : ℚ)).map seconds_to_time_string),
        warned', logged⟩
  | _, _, _ =>
    -- `int(...)` raised while parsing one of the three time strings
    ⟨.error (.valueError "invalid literal for int"), c.warned_run_goal, false⟩

/-- `FitnessProgressionCalculator.calculate_strength_progression`. -/
def calculate_strength_progression (c : FitnessProgressionCalculator)
    (exercise : String) : Except PyErr (List ℤ) :=
  match c.fitness_config.baseline.repMetric exercise,
        c.fitness_config.goals.repMetric exercise,
        c.fitness_config.pfa_standards.repMetric exercise with
  | some baseline, some goal, some standard =>
    if goal < standard then
      .error (.valueError
        s!"Goal {exercise} ({goal}) does not meet PFA standard ({standard})")
    else
      let buffer := c.buffer_weeks exercise
      if c.timeline_weeks ≤ buffer then
        .error (.valueError "Buffer weeks exceed total timeline weeks")
      else
        let eff := c.timeline_weeks - buffer
        let weekly_improvement : ℚ := ((goal : ℚ) - (baseline : ℚ)) / (eff : ℚ)
        .ok (accumLoop weekly_improvement eff 0 c.timeline_weeks (baseline : ℚ))
  | _, _, _ => .error (.keyError exercise)

/-- `FitnessProgressionCalculator.calculate_adaptation_weeks`:
`range(adaptation_frequency - 1, timeline_weeks, adaptation_frequency)`. -/
def calculate_adaptation_weeks (c : FitnessProgressionCalculator)
    (adaptation_frequency : ℕ) : List ℕ :=
  pyRange (adaptation_frequency - 1) c.timeline_weeks adaptation_frequency

/-- `FitnessProgressionCalculator.get_weekly_volume_multiplier`. -/
def get_weekly_volume_multiplier (c : FitnessProgressionCalculator)
    (week adaptation_frequency : ℕ) (reduction_factor : ℚ) : ℚ :=
  if week ∈ calculate_adaptation_weeks c adaptation_frequency then
    reduction_factor
  else 1

section ProgressionLemmas

theorem accumLoop_succ (delta : ℚ) (eff week fuel : ℕ) (current : ℚ) :
    accumLoop delta eff week (fuel + 1) current =
      pyRound (if week < eff then current + delta else current) ::
        accumLoop delta eff (week + 1) fuel
          (if week < eff then current + delta else current) := rfl

/-- Closed form of the progression loop: the value emitted at offset `j`
has received one `delta` per completed active week. -/
theorem accumLoop_eq_map (delta : ℚ) (eff : ℕ) :
    ∀ (fuel week : ℕ) (current : ℚ),
      accumLoop delta eff week fuel current =
        (List.range fuel).map
          (fun j =>
            pyRound (current + ((min (week + j + 1) eff - week : ℕ) : ℚ) * delta)) := by
  intro fuel
  induction fuel with
  | zero => intro week current; rfl
  | succ fuel ih =>
    intro week current
    rw [accumLoop_succ, ih, List.range_succ_eq_map, List.map_cons, List.map_map]
    by_cases hlt : week < eff
    · rw [if_pos hlt]
      congr 1
      · have h0 : min (week + 0 + 1) eff - week = 1 := by omega
        rw [h0]
        norm_num
      · apply List.map_congr_left
        intro j hj
        simp only [Function.comp_apply, Nat.succ_eq_add_one]
        congr 1
        have hidx : week + (j + 1) + 1 = week + 1 + j + 1 := by ring
        have h1 : (min (week + 1 + j + 1) eff - week : ℕ) =
            (min (week + 1 + j + 1) eff - (week + 1)) + 1 := by omega
        rw [hidx, h1]
        push_cast
        ring
    · rw [if_neg hlt]
      congr 1
      · have h0 : min (week + 0 + 1) eff - week = 0 := by omega
        rw [h0]
        norm_num
      · apply List.map_congr_left
        intro j hj
        simp only [Function.comp_apply, Nat.succ_eq_add_one]
        congr 1
        have h1 : (min (week + 1 + j + 1) eff - (week + 1) : ℕ) = 0 := by omega
        have h2 : (min (week + (j + 1) + 1) eff - week : ℕ) = 0 := by omega
        rw [h1, h2]

theorem getD_map_range {α : Type} (f : ℕ → α) (n i : ℕ) (hi : i < n) (d : α) :
    (((List.range n).map f).getD i d) = f i := by
  rw [List.getD_eq_getElem?_getD, List.getElem?_map, List.getElem?_range hi]
  rfl

theorem length_map_range {α : Type} (f : ℕ → α) (n : ℕ) :
    ((List.range n).map f).length = n := by
  simp

theorem pyRound_intCast (n : ℤ) : pyRound ((n : ℚ)) = n := by
  unfold pyRound
  simp

end ProgressionLemmas

/-- C1: for every valid configuration (`baseline`, `goal`, total `weeks`,
`buffer` with `weeks - buffer ≥ 1`), `calculate_run_progression` and
`calculate_strength_progression` each return a sequence of length exactly
`weeks`, and every value at an index `≥ weeks - buffer` equals the value
at index `weeks - buffer - 1` (the plateau value). -/
theorem c1_progression_length_and_plateau :
    (∀ (c : FitnessProgressionCalculator) (b g s : ℕ),
      parse_time_to_seconds c.fitness_config.baseline.run_time = some b →
      parse_time_to_seconds c.fitness_config.goals.run_time = some g →
      parse_time_to_seconds c.fitness_config.pfa_standards.run_time = some s →
      c.buffer_weeks "run" < c.timeline_weeks →
      ∃ prog, (calculate_run_progression c).result = .ok prog ∧
        prog.length = c.timeline_weeks ∧
        ∀ i, c.timeline_weeks - c.buffer_weeks "run" ≤ i →
          i < c.timeline_weeks →
          prog.getD i "" =
            prog.getD (c.timeline_weeks - c.buffer_weeks "run" - 1) "") ∧
    (∀ (c : FitnessProgressionCalculator) (exercise : String) (b g s : ℤ),
      c.fitness_config.baseline.repMetric exercise = some b →
      c.fitness_config.goals.repMetric exercise = some g →
      c.fitness_config.pfa_standards.repMetric exercise = some s →
      s ≤ g →
      c.buffer_weeks exercise < c.timeline_weeks →
      ∃ prog, calculate_strength_progression c exercise = .ok prog ∧
        prog.length = c.timeline_weeks ∧
        ∀ i, c.timeline_weeks - c.buffer_weeks exercise ≤ i →
          i < c.timeline_weeks →
          prog.getD i 0 =
            prog.getD (c.timeline_weeks - c.buffer_weeks exercise - 1) 0) := by
  constructor
  · intro c b g s hb hg hs hbuf
    unfold calculate_run_progression
    rw [hb, hg, hs]
    simp only
    rw [if_neg (by omega)]
    refine ⟨_, rfl, ?_, ?_⟩
    · rw [accumLoop_eq_map, List.map_map, length_map_range]
    · intro i hi1 hi2
      rw [accumLoop_eq_map, List.map_map,
        getD_map_range _ _ _ hi2, getD_map_range _ _ _ (by omega)]
      have harg : ((min (0 + i + 1) (c.timeline_weeks - c.buffer_weeks "run") - 0 : ℕ) : ℚ) =
          ((min (0 + (c.timeline_weeks - c.buffer_weeks "run" - 1) + 1)
              (c.timeline_weeks - c.buffer_weeks "run") - 0 : ℕ) : ℚ) := by
        norm_cast
        omega
      simp only [Function.comp_apply]
      rw [harg]
  · intro c exercise b g s hb hg hs hgs hbuf
    unfold calculate_strength_progression
    rw [hb, hg, hs]
    simp only
    rw [if_neg (by omega), if_neg (by omega)]
    refine ⟨_, rfl, ?_, ?_⟩
    · rw [accumLoop_eq_map, length_map_range]
    · intro i hi1 hi2
      rw [accumLoop_eq_map,
        getD_map_range _ _ _ hi2, getD_map_range _ _ _ (by omega)]
      have harg : ((min (0 + i + 1) (c.timeline_weeks - c.buffer_weeks exercise) - 0 : ℕ) : ℚ) =
          ((min (0 + (c.timeline_weeks - c.buffer_weeks exercise - 1) + 1)
              (c.timeline_weeks - c.buffer_weeks exercise) - 0 : ℕ) : ℚ) := by
        norm_cast
        omega
      rw [harg]

/-- Witness for C1: a concrete calculator (baseline 15:00, goal 12:45,
standard 13:36, 16 weeks, buffer 4 for the run and 2 for pushups). -/
theorem c1_progression_length_and_plateau_witness :
    ∃ prog,
      (calculate_run_progression
        ⟨⟨⟨"15:00", 20, 30⟩, ⟨"12:45", 50, 60⟩, ⟨"13:36", 33, 42⟩⟩, 16,
          fun m => if m = "run" then 4 else 2, false⟩).result = .ok prog ∧
      prog.length = 16 ∧
      ∀ i, 16 - 4 ≤ i → i < 16 → prog.getD i "" = prog.getD (16 - 4 - 1) "" := by
  have h := c1_progression_length_and_plateau.1
    ⟨⟨⟨"15:00", 20, 30⟩, ⟨"12:45", 50, 60⟩, ⟨"13:36", 33, 42⟩⟩, 16,
      fun m => if m = "run" then 4 else 2, false⟩
    900 765 816 (by decide) (by decide) (by decide) (by decide)
  simpa using h

/-- C7: for every adaptation frequency `f ≥ 1`, `calculate_adaptation_weeks`
returns exactly the set `{f-1, 2f-1, 3f-1, ...} ∩ [0, weeks)` (i.e. the
weeks `w` with `w + 1` a positive multiple of `f` and `w < weeks`), and
`get_weekly_volume_multiplier` returns the configured reduction factor on
exactly those weeks and `1.0` on every other week. -/
theorem c7_adaptation_weeks_and_multiplier
    (c : FitnessProgressionCalculator) (f : ℕ) (hf : 1 ≤ f) :
    (∀ w, w ∈ calculate_adaptation_weeks c f ↔
      ((∃ k, 1 ≤ k ∧ w + 1 = k * f) ∧ w < c.timeline_weeks)) ∧
    (∀ week (r : ℚ),
      (((∃ k, 1 ≤ k ∧ week + 1 = k * f) ∧ week < c.timeline_weeks) →
        get_weekly_volume_multiplier c week f r = r) ∧
      (¬ ((∃ k, 1 ≤ k ∧ week + 1 = k * f) ∧ week < c.timeline_weeks) →
        get_weekly_volume_multiplier c week f r = 1)) := by
  have hmem : ∀ w, w ∈ calculate_adaptation_weeks c f ↔
      ((∃ k, 1 ≤ k ∧ w + 1 = k * f) ∧ w < c.timeline_weeks) := by
    intro w
    unfold calculate_adaptation_weeks pyRange
    rw [List.mem_range']
    constructor
    · rintro ⟨i, hin, rfl⟩
      have hmul : (i + 1) * f ≤ c.timeline_weeks - (f - 1) + f - 1 :=
        (Nat.le_div_iff_mul_le (by omega)).mp hin
      have hexp : (i + 1) * f = f * i + f := by ring
      rw [hexp] at hmul
      refine ⟨⟨i + 1, by omega, ?_⟩, by omega⟩
      rw [hexp]
      omega
    · rintro ⟨⟨k, hk1, hkw⟩, hw⟩
      refine ⟨k - 1, ?_, ?_⟩
      · apply (Nat.le_div_iff_mul_le (by omega)).mpr
        have hk' : (k - 1).succ = k := by omega
        rw [hk']
        omega
      · have hms : f * (k - 1) = f * k - f := Nat.mul_sub_one f k
        have hcomm : f * k = k * f := Nat.mul_comm f k
        have hge : f ≤ k * f := by
          calc f = 1 * f := (one_mul f).symm
          _ ≤ k * f := Nat.mul_le_mul_right f hk1
        rw [hms, hcomm]
        omega
  refine ⟨hmem, ?_⟩
  intro week r
  constructor
  · intro hcond
    unfold get_weekly_volume_multiplier
    rw [if_pos ((hmem week).mpr hcond)]
  · intro hcond
    unfold get_weekly_volume_multiplier
    rw [if_neg (fun hmemw => hcond ((hmem week).mp hmemw))]

/-- Witness for C7: frequency 4 over a 16-week timeline. -/
theorem c7_adaptation_weeks_and_multiplier_witness :
    (7 ∈ calculate_adaptation_weeks
        ⟨⟨⟨"15:00", 20, 30⟩, ⟨"12:45", 50, 60⟩, ⟨"13:36", 33, 42⟩⟩, 16,
          fun _ => 0, false⟩ 4 ↔
      ((∃ k, 1 ≤ k ∧ 7 + 1 = k * 4) ∧ 7 < 16)) := by
  have h := (c7_adaptation_weeks_and_multiplier
    ⟨⟨⟨"15:00", 20, 30⟩, ⟨"12:45", 50, 60⟩, ⟨"13:36", 33, 42⟩⟩, 16,
      fun _ => 0, false⟩ 4 (by decide)).1 7
  simpa using h

theorem calculate_run_progression_spec
    (c : FitnessProgressionCalculator) (b g s : ℕ)
    (hb : parse_time_to_seconds c.fitness_config.baseline.run_time = some b)
    (hg : parse_time_to_seconds c.fitness_config.goals.run_time = some g)
    (hs : parse_time_to_seconds c.fitness_config.pfa_standards.run_time = some s)
    (hbuf : c.buffer_weeks "run" < c.timeline_weeks) :
    calculate_run_progression c =
      ⟨.ok ((accumLoop
          (-(((b : ℚ) - ((if decide (g > s) then s else g : ℕ) : ℚ)) /
              ((c.timeline_weeks - c.buffer_weeks "run" : ℕ) : ℚ)))
          (c.timeline_weeks - c.buffer_weeks "run") 0 c.timeline_weeks
          (b : ℚ)).map seconds_to_time_string),
        c.warned_run_goal || decide (g > s),
        decide (g > s) && !c.warned_run_goal⟩ := by
  unfold calculate_run_progression
  rw [hb, hg, hs]
  simp only []
  rw [if_neg (show ¬ c.timeline_weeks ≤ c.buffer_weeks "run" by omega)]

/-- C8: when the configured run-time goal is slower than the PFA standard
(goal seconds > standard seconds), `calculate_run_progression` does not
fail: it computes the progression using the standard as the effective
target (the plateau equals the standard), and the warning is logged at
most once per calculator instance across repeated calls (a first call
logs exactly when the instance flag was still unset, sets the flag, and
a second call on the updated instance does not log). -/
theorem c8_run_goal_clamped_and_warned_once
    (c : FitnessProgressionCalculator) (b g s : ℕ)
    (hb : parse_time_to_seconds c.fitness_config.baseline.run_time = some b)
    (hg : parse_time_to_seconds c.fitness_config.goals.run_time = some g)
    (hs : parse_time_to_seconds c.fitness_config.pfa_standards.run_time = some s)
    (hgs : s < g)
    (hbuf : c.buffer_weeks "run" < c.timeline_weeks) :
    ∃ prog, (calculate_run_progression c).result = .ok prog ∧
      prog.length = c.timeline_weeks ∧
      (∀ i, c.timeline_weeks - c.buffer_weeks "run" - 1 ≤ i →
        i < c.timeline_weeks →
        prog.getD i "" = seconds_to_time_string (s : ℤ)) ∧
      (calculate_run_progression c).logged = !c.warned_run_goal ∧
      (calculate_run_progression c).warned_run_goal = true ∧
      (calculate_run_progression
        {c with warned_run_goal :=
          (calculate_run_progression c).warned_run_goal}).logged = false := by
  have hd : decide (g > s) = true := decide_eq_true hgs
  have hspec := calculate_run_progression_spec c b g s hb hg hs hbuf
  refine ⟨(accumLoop
      (-(((b : ℚ) - (s : ℚ)) /
          ((c.timeline_weeks - c.buffer_weeks "run" : ℕ) : ℚ)))
      (c.timeline_weeks - c.buffer_weeks "run") 0 c.timeline_weeks
      (b : ℚ)).map seconds_to_time_string, ?_, ?_, ?_, ?_, ?_, ?_⟩
  · rw [hspec]
    simp [hd]
  · rw [accumLoop_eq_map, List.map_map]
    simp
  · intro i hi1 hi2
    rw [accumLoop_eq_map, List.map_map, getD_map_range _ _ _ hi2]
    simp only [Function.comp_apply]
    have hmin : ((min (0 + i + 1) (c.timeline_weeks - c.buffer_weeks "run") - 0 : ℕ) : ℚ) =
        ((c.timeline_weeks - c.buffer_weeks "run" : ℕ) : ℚ) := by
      norm_cast
      omega
    rw [hmin]
    have heffne : ((c.timeline_weeks - c.buffer_weeks "run" : ℕ) : ℚ) ≠ 0 := by
      rw [Nat.cast_ne_zero]
      omega
    have hval : (b : ℚ) +
        ((c.timeline_weeks - c.buffer_weeks "run" : ℕ) : ℚ) *
          (-(((b : ℚ) - (s : ℚ)) /
            ((c.timeline_weeks - c.buffer_weeks "run" : ℕ) : ℚ))) = ((s : ℕ) : ℚ) := by
      field_simp
    rw [hval]
    have hcast : ((s : ℕ) : ℚ) = (((s : ℕ) : ℤ) : ℚ) := by push_cast; rfl
    rw [hcast, pyRound_intCast]
  · rw [hspec]
    simp [hd]
  · rw [hspec]
    simp [hd]
  · rw [hspec]
    have hspec2 := calculate_run_progression_spec
      {c with warned_run_goal := true} b g s hb hg hs hbuf
    simp only [hd, Bool.or_true]
    rw [hspec2]
    simp

/-- Witness for C8: goal 14:00 is slower than the standard 13:36. -/
theorem c8_run_goal_clamped_and_warned_once_witness :
    ∃ prog,
      (calculate_run_progression
        ⟨⟨⟨"15:00", 20, 30⟩, ⟨"14:00", 50, 60⟩, ⟨"13:36", 33, 42⟩⟩, 16,
          fun _ => 4, false⟩).result = .ok prog ∧
      prog.length = 16 ∧
      (∀ i, 16 - 4 - 1 ≤ i → i < 16 →
        prog.getD i "" = seconds_to_time_string (816 : ℤ)) ∧
      (calculate_run_progression
        ⟨⟨⟨"15:00", 20, 30⟩, ⟨"14:00", 50, 60⟩, ⟨"13:36", 33, 42⟩⟩, 16,
          fun _ => 4, false⟩).logged = !false ∧
      (calculate_run_progression
        ⟨⟨⟨"15:00", 20, 30⟩, ⟨"14:00", 50, 60⟩, ⟨"13:36", 33, 42⟩⟩, 16,
          fun _ => 4, false⟩).warned_run_goal = true ∧
      (calculate_run_progression
        {(⟨⟨⟨"15:00", 20, 30⟩, ⟨"14:00", 50, 60⟩, ⟨"13:36", 33, 42⟩⟩, 16,
            fun _ => 4, false⟩ : FitnessProgressionCalculator) with
          warned_run_goal :=
            (calculate_run_progression
              ⟨⟨⟨"15:00", 20, 30⟩, ⟨"14:00", 50, 60⟩, ⟨"13:36", 33, 42⟩⟩, 16,
                fun _ => 4, false⟩).warned_run_goal}).logged = false := by
  have h := c8_run_goal_clamped_and_warned_once
    ⟨⟨⟨"15:00", 20, 30⟩, ⟨"14:00", 50, 60⟩, ⟨"13:36", 33, 42⟩⟩, 16,
      fun _ => 4, false⟩
    900 840 816 (by decide) (by decide) (by decide) (by decide) (by decide)
  simpa using h

/-!
## Workout progression engine (`src/progression_engine.py`)
-/

/-- Render an integer as Python `str` does. -/
def intToString (n : ℤ) : String := ⟨intToDigits n⟩

/-- Render a natural number as Python `str` does. -/
def natToString (n : ℕ) : String := ⟨natToDigits n⟩

/-- Python `f"{q:.1f}"`: one decimal digit, rounding half to even on the
exact rational value (floats are modelled exactly over `ℚ`). -/
def pyFmt1 (q : ℚ) : String :=
  let r := pyRound (q * 10)
  let sign := if r < 0 then "-" else ""
  sign ++ intToString (|r| / 10) ++ "." ++ intToString (|r| % 10)

/-- `training.schedule` configuration section. -/
structure Schedule where
  workout_days : List String
  strength_days : List String
  rest_days : List String

/-- `training.workout_times` configuration section; each per-category
entry may be absent. -/
structure WorkoutTimes where
  workout_days : Option String
  strength_days : Option String
  easy_days : Option String

/-- `training` configuration section; the whole `workout_times` key may
be absent. -/
structure TrainingConfig where
  schedule : Schedule
  workout_times : Option WorkoutTimes

/-- `progression.adaptation_periods` configuration section. -/
structure AdaptationPeriods where
  frequency : ℕ
  reduction : ℚ

/-- `progression` configuration section. -/
structure ProgressionConfig where
  adaptation_periods : AdaptationPeriods

/-- `WorkoutProgressionEngine.__init__` state. -/
structure WorkoutProgressionEngine where
  training_config : TrainingConfig
  progression_config : ProgressionConfig
  fitness_calculator : FitnessProgressionCalculator

/-- `WorkoutProgressionEngine._normalize_day_name`. -/
def normalize_day_name : String → String
  | "Monday" => "Mon"
  | "Tuesday" => "Tue"
  | "Wednesday" => "Wed"
  | "Thursday" => "Thu"
  | "Friday" => "Fri"
  | "Saturday" => "Sat"
  | "Sunday" => "Sun"
  | day => day

/-- Result of `FitnessProgressionCalculator.get_weekly_targets`. -/
structure WeeklyTargets where
  run_time : String
  pushups : ℤ
  situps : ℤ

/-- `FitnessProgressionCalculator.get_weekly_targets`: compute the three
progressions (any raised error propagates), clamp the week index to the
last week, and read off the three values.  (On the non-error path the
lists are nonempty, so `getD` coincides with Python's list indexing; the
run call's mutation of the warning flag does not affect the values.) -/
def get_weekly_targets (cal : FitnessProgressionCalculator) (week : ℕ) :
    Except PyErr WeeklyTargets :=
  match (calculate_run_progression cal).result with
  | .error e => .error e
  | .ok run_progression =>
    match calculate_strength_progression cal "pushups" with
    | .error e => .error e
    | .ok pushup_progression =>
      match calculate_strength_progression cal "situps" with
      | .error e => .error e
      | .ok situp_progression =>
        let week :=
          if run_progression.length ≤ week then run_progression.length - 1
          else week
        .ok ⟨run_progression.getD week "", pushup_progression.getD week 0,
          situp_progression.getD week 0⟩

/-- `WorkoutProgressionEngine._calculate_training_pace`.  The engine's
private `_parse_time_to_seconds` and `_seconds_to_pace` are line-for-line
copies of the `time_utils` functions, so the shared embeddings are
reused. -/
def calculate_training_pace (cal : FitnessProgressionCalculator)
    (week : ℕ) (intensity : String) : Except PyErr String :=
  match get_weekly_targets cal week with
  | .error e => .error e
  | .ok weekly_targets =>
    match parse_time_to_seconds weekly_targets.run_time with
    | none => .error (.valueError "invalid literal for int")
    | some goal_pace_seconds =>
      let mile_pace_seconds := pyInt ((goal_pace_seconds : ℚ) / (3/2))
      let multiplier : ℚ :=
        match intensity with
        | "easy" => 23/20
        | "moderate" => 21/20
        | "tempo" => 49/50
        | "hard" => 9/10
        | "interval" => 17/20
        | _ => 1
      let training_pace_seconds := pyInt ((mile_pace_seconds : ℚ) * multiplier)
      .ok (seconds_to_time_string training_pace_seconds)

/-- The `main_set` value of a workout: a string for most archetypes, a
table of named exercises for `strength_core`. -/
inductive MainSet where
  | str (s : String)
  | table (kv : List (String × String))
deriving DecidableEq, Repr

/-- A workout dictionary; fields that are absent from a given archetype's
dictionary are `none`. -/
structure Workout where
  type : String
  warm_up : Option String := none
  main_set : Option MainSet := none
  cool_down : Option String := none
  total_duration : Option ℤ := none
  intensity : Option String := none
  focus : Option String := none
  strength_component : Option String := none
  core_component : Option String := none
  week : Option ℕ := none
  day : Option String := none
  time : Option String := none
  volume_multiplier : Option ℚ := none
  activity : Option String := none
deriving DecidableEq, Repr

/-- `WorkoutProgressionEngine._generate_run_intervals`. -/
def generate_run_intervals (cal : FitnessProgressionCalculator)
    (week : ℕ) (volume_multiplier : ℚ) : Except PyErr Workout := do
  let base_intervals : ℤ := 6
  let interval_distance : ℕ := 200
  let total_intervals := pyInt (((base_intervals + (week / 2 : ℕ) * 2 : ℤ) : ℚ))
  let total_intervals := pyInt ((total_intervals : ℚ) * volume_multiplier)
  let interval_pace ← calculate_training_pace cal week "interval"
  let weekly_targets ← get_weekly_targets cal week
  let pushup_target := max (pyInt ((weekly_targets.pushups : ℚ) * (7/10))) 5
  .ok { type := "run_intervals",
        warm_up := some "10 min easy jog + dynamic warm-up",
        main_set := some (.str (intToString total_intervals ++ "×" ++
          natToString interval_distance ++ "m @ " ++ interval_pace ++
          "/mi pace, 2:00 rest")),
        cool_down := some "10 min easy jog + stretching",
        total_duration := some 45,
        intensity := some "hard",
        focus := some "speed_endurance",
        strength_component := some ("Push-ups: 4×" ++ intToString pushup_target) }

/-- `WorkoutProgressionEngine._generate_tempo_run`. -/
def generate_tempo_run (cal : FitnessProgressionCalculator)
    (week : ℕ) (volume_multiplier : ℚ) : Except PyErr Workout := do
  let base_distance : ℚ := 3/2
  let progression_distance := base_distance + (week : ℚ) * (1/4)
  let total_distance := progression_distance * volume_multiplier
  let tempo_pace ← calculate_training_pace cal week "tempo"
  let pattern :=
    if week < 4 then "jog/walk intervals (3:1 ratio)"
    else if week < 8 then "continuous jog (easy pace)"
    else "tempo run @ " ++ tempo_pace ++ "/mi"
  let weekly_targets ← get_weekly_targets cal week
  let situp_target := max (pyInt ((weekly_targets.situps : ℚ) * (3/5))) 10
  .ok { type := "tempo_run",
        warm_up := some "5 min walk + 5 min easy jog",
        main_set := some (.str (pyFmt1 total_distance ++ " mi " ++ pattern)),
        cool_down := some "5 min walk + stretching",
        total_duration := some 40,
        intensity := some "moderate",
        focus := some "aerobic_endurance",
        core_component := some ("Core: " ++ intToString situp_target ++
          " sit-ups, dead bug 2×10/side, side planks 2×30s") }

/-- `WorkoutProgressionEngine._generate_pfa_circuit`. -/
def generate_pfa_circuit (cal : FitnessProgressionCalculator)
    (week : ℕ) (volume_multiplier : ℚ) : Except PyErr Workout := do
  let weekly_targets ← get_weekly_targets cal week
  let base_rounds : ℕ := 3
  let total_rounds := pyInt (((base_rounds + week / 4 : ℕ) : ℚ) * volume_multiplier)
  let circuit_pace ← calculate_training_pace cal week "moderate"
  let pushup_reps := max (pyInt ((weekly_targets.pushups : ℚ) * (3/5))) 8
  let situp_reps := max (pyInt ((weekly_targets.situps : ℚ) * (1/2))) 12
  .ok { type := "pfa_circuit",
        warm_up := some "10 min dynamic warm-up",
        main_set := some (.str (intToString total_rounds ++
          " rounds: 400m jog @ " ++ circuit_pace ++ "/mi + " ++
          intToString pushup_reps ++ " push-ups + " ++
          intToString situp_reps ++ " sit-ups + 90s rest")),
        cool_down := some "5 min walk + stretching",
        total_duration := some 50,
        intensity := some "moderate",
        focus := some "pfa_simulation" }

/-- `WorkoutProgressionEngine._generate_strength_core`. -/
def generate_strength_core (cal : FitnessProgressionCalculator)
    (week : ℕ) (volume_multiplier : ℚ) : Except PyErr Workout := do
  let weekly_targets ← get_weekly_targets cal week
  let pushup_target := pyInt ((weekly_targets.pushups : ℚ) * volume_multiplier)
  let situp_target := pyInt ((weekly_targets.situps : ℚ) * volume_multiplier)
  let pushup_sets :=
    if week < 4 then "4×" ++ intToString (max (pyInt ((pushup_target : ℚ) * (3/5))) 5)
    else if week < 8 then "5×" ++ intToString (max (pyInt ((pushup_target : ℚ) * (7/10))) 8)
    else "6×" ++ intToString (max (pyInt ((pushup_target : ℚ) * (4/5))) 10)
  .ok { type := "strength_core",
        warm_up := some "10 min general warm-up",
        main_set := some (.table
          [("push_ups", pushup_sets),
           ("sit_ups", "4×" ++ intToString (max (pyInt ((situp_target : ℚ) * (7/10))) 15)),
           ("dead_bugs", "3×10/side"),
           ("squats", "3×15-20"),
           ("lunges", "3×10/leg"),
           ("pull_ups", "3×max reps or assisted"),
           ("dips", "3×8-12")]),
        cool_down := some "10 min stretching",
        total_duration := some 60,
        intensity := some "moderate",
        focus := some "strength_endurance" }

/-- `WorkoutProgressionEngine._generate_easy_run`. -/
def generate_easy_run (cal : FitnessProgressionCalculator)
    (week : ℕ) (volume_multiplier : ℚ) : Except PyErr Workout := do
  let base_distance : ℚ := 2
  let total_distance := (base_distance + (week : ℚ) * (1/10)) * volume_multiplier
  let easy_pace ← calculate_training_pace cal week "easy"
  let run_type :=
    if week < 3 then "brisk walk"
    else if week < 6 then "jog/walk"
    else "easy jog @ " ++ easy_pace ++ "/mi"
  .ok { type := "easy_run",
        warm_up := some "5 min walk",
        main_set := some (.str (pyFmt1 total_distance ++ " mi " ++ run_type)),
        cool_down := some "5 min walk + light stretching",
        total_duration := some 30,
        intensity := some "easy",
        focus := some "recovery" }

/-- `WorkoutProgressionEngine._generate_long_run`. -/
def generate_long_run (cal : FitnessProgressionCalculator)
    (week : ℕ) (volume_multiplier : ℚ) : Except PyErr Workout := do
  let base_distance : ℚ := 3
  let total_distance := (base_distance + (week : ℚ) * (1/5)) * volume_multiplier
  let easy_pace ← calculate_training_pace cal week "easy"
  .ok { type := "long_run",
        warm_up := some "10 min walk + 5 min easy jog",
        main_set := some (.str (pyFmt1 total_distance ++ " mi @ " ++
          easy_pace ++ "/mi (conversational pace)")),
        cool_down := some "10 min walk + full stretching routine",
        total_duration := some (pyInt (45 + total_distance * 5)),
        intensity := some "easy",
        focus := some "aerobic_base" }

/-- The `self.workout_types` dictionary built in `__init__`: archetype
name to generator method; `none` models `workout_type in
self.workout_types` failing. -/
def workoutTypesLookup (cal : FitnessProgressionCalculator) (name : String) :
    Option (ℕ → ℚ → Except PyErr Workout) :=
  match name with
  | "run_intervals" => some (generate_run_intervals cal)
  | "tempo_run" => some (generate_tempo_run cal)
  | "pfa_circuit" => some (generate_pfa_circuit cal)
  | "strength_core" => some (generate_strength_core cal)
  | "easy_run" => some (generate_easy_run cal)
  | "long_run" => some (generate_long_run cal)
  | _ => none

/-- Outcome of the `if not workout_type:` block of `get_workout_for_day`:
either the early rest-day return, or the chosen archetype name paired
with the value of the local variable `normalized_day` (which stays
unassigned — `none` — when `workout_type` was supplied by the caller). -/
inductive BranchOutcome where
  | restReturn
  | proceed (workout_type : String) (normalized_day : Option String)

/-- The day-to-archetype part of `get_workout_for_day` (lines 252-271):
run only when `workout_type` is falsy (None or the empty string). -/
def chooseWorkoutType (eng : WorkoutProgressionEngine) (day : String)
    (workout_type? : Option String) : BranchOutcome :=
  if workout_type?.getD "" = "" then
    let schedule := eng.training_config.schedule
    let normalized_day := normalize_day_name day
    if normalized_day ∈ schedule.workout_days then
      let day_index := schedule.workout_days.indexOf normalized_day
      let workout_types := ["run_intervals", "tempo_run", "pfa_circuit"]
      .proceed (workout_types.getD (day_index % workout_types.length) "")
        (some normalized_day)
    else if normalized_day ∈ schedule.strength_days then
      .proceed "strength_core" (some normalized_day)
    else if normalized_day ∈ schedule.rest_days then
      if normalized_day = "Sat" then .proceed "easy_run" (some normalized_day)
      else .restReturn
    else .proceed "easy_run" (some normalized_day)
  else
    .proceed (workout_type?.getD "") none

/-- `WorkoutProgressionEngine.get_workout_for_day`.  Reading the local
`normalized_day` when it was never assigned models Python's
`UnboundLocalError` (the read happens at line 286, after the
`workout_times` presence check at line 281). -/
def get_workout_for_day (eng : WorkoutProgressionEngine) (day : String)
    (week : ℕ) (workout_type? : Option String) : Except PyErr Workout :=
  let adaptation_frequency := eng.progression_config.adaptation_periods.frequency
  let reduction_factor := eng.progression_config.adaptation_periods.reduction
  let vm := get_weekly_volume_multiplier eng.fitness_calculator week
    adaptation_frequency reduction_factor
  match chooseWorkoutType eng day workout_type? with
  | .restReturn =>
    .ok { type := "rest", activity := some "Complete rest or light stretching" }
  | .proceed workout_type normalized_day? =>
    match workoutTypesLookup eng.fitness_calculator workout_type with
    | some gen =>
      match gen week vm with
      | .error e => .error e
      | .ok workout0 =>
        let workout := { workout0 with
          week := some (week + 1), day := some day,
          volume_multiplier := some vm }
        match eng.training_config.workout_times with
        | none => .error (.valueError "Missing 'workout_times' configuration")
        | some workout_times =>
          match normalized_day? with
          | none => .error (.unboundLocal "normalized_day")
          | some normalized_day =>
            if normalized_day ∈ eng.training_config.schedule.workout_days then
              match workout_times.workout_days with
              | none => .error
                  (.valueError "Missing 'workout_days' time in workout_times config")
              | some t => .ok { workout with time := some t }
            else if normalized_day ∈ eng.training_config.schedule.strength_days then
              match workout_times.strength_days with
              | none => .error
                  (.valueError "Missing 'strength_days' time in workout_times config")
              | some t => .ok { workout with time := some t }
            else if normalized_day = "Sat" then
              match workout_times.easy_days with
              | none => .error
                  (.valueError "Missing 'easy_days' time in workout_times config")
              | some t => .ok { workout with time := some t }
            else
              .error (.valueError
                ("No workout time configured for day: " ++ normalized_day))
    | none => .error (.valueError ("Unknown workout type: " ++ workout_type))

section EngineLemmas

theorem workoutTypesLookup_empty (cal : FitnessProgressionCalculator) :
    workoutTypesLookup cal "" = none := rfl

theorem chooseWorkoutType_some (eng : WorkoutProgressionEngine) (day : String)
    (wt : String) (hne : wt ≠ "") :
    chooseWorkoutType eng day (some wt) = .proceed wt none := by
  unfold chooseWorkoutType
  simp [hne]

theorem rotation_lookup (cal : FitnessProgressionCalculator) (i : ℕ) :
    ∃ gen, workoutTypesLookup cal
      ((["run_intervals", "tempo_run", "pfa_circuit"] : List String).getD (i % 3) "") =
        some gen := by
  have h3 : i % 3 = 0 ∨ i % 3 = 1 ∨ i % 3 = 2 := by omega
  rcases h3 with h | h | h <;> rw [h] <;> exact ⟨_, rfl⟩

end EngineLemmas

/-- C10: for every call to `get_workout_for_day` that passes an explicit
truthy `workout_type` argument naming a known archetype, the function
raises (it never returns a workout); specifically, whenever the dispatched
generator itself succeeds and the `workout_times` section is present, the
raised error is the unbound-local-variable error on `normalized_day`,
because the day-name normalization is only performed on the branch where
`workout_type` was not supplied. -/
theorem c10_explicit_workout_type_never_returns :
    (∀ (eng : WorkoutProgressionEngine) (day : String) (week : ℕ)
      (wt : String) (gen : ℕ → ℚ → Except PyErr Workout),
      workoutTypesLookup eng.fitness_calculator wt = some gen →
      ∀ w, get_workout_for_day eng day week (some wt) ≠ .ok w) ∧
    (∀ (eng : WorkoutProgressionEngine) (day : String) (week : ℕ)
      (wt : String) (gen : ℕ → ℚ → Except PyErr Workout)
      (wts : WorkoutTimes) (w0 : Workout),
      workoutTypesLookup eng.fitness_calculator wt = some gen →
      eng.training_config.workout_times = some wts →
      gen week (get_weekly_volume_multiplier eng.fitness_calculator week
        eng.progression_config.adaptation_periods.frequency
        eng.progression_config.adaptation_periods.reduction) = .ok w0 →
      get_workout_for_day eng day week (some wt) =
        .error (.unboundLocal "normalized_day")) := by
  have hne : ∀ (cal : FitnessProgressionCalculator) (wt : String)
      (gen : ℕ → ℚ → Except PyErr Workout),
      workoutTypesLookup cal wt = some gen → wt ≠ "" := by
    intro cal wt gen hlk h
    subst h
    rw [workoutTypesLookup_empty] at hlk
    exact Option.noConfusion hlk
  constructor
  · intro eng day week wt gen hlk w
    unfold get_workout_for_day
    rw [chooseWorkoutType_some eng day wt (hne _ _ _ hlk)]
    simp only []
    rw [hlk]
    cases hg : gen week (get_weekly_volume_multiplier eng.fitness_calculator week
        eng.progression_config.adaptation_periods.frequency
        eng.progression_config.adaptation_periods.reduction) with
    | error e => simp [hg]
    | ok w0 =>
      cases hwt : eng.training_config.workout_times with
      | none => simp [hg, hwt]
      | some wts => simp [hg, hwt]
  · intro eng day week wt gen wts w0 hlk hwt hg
    unfold get_workout_for_day
    rw [chooseWorkoutType_some eng day wt (hne _ _ _ hlk)]
    simp only []
    rw [hlk]
    simp only []
    rw [hg, hwt]

/-- C5: each of the following conditions causes the affected computation
to fail immediately with a raised error (the spec's `ConfigError`
taxonomy; the code raises `ValueError`) rather than returning a result or
silently defaulting: (1) buffer weeks ≥ total weeks, for the run and for
the strength progression; (2) a missing workout-time-of-day entry for the
day's category (shown for each of the three categories); (3) an
unrecognized workout archetype name passed to `get_workout_for_day`;
(4) a rep-count goal below the PFA standard. -/
theorem c5_config_errors_raise :
    (∀ c : FitnessProgressionCalculator,
      c.timeline_weeks ≤ c.buffer_weeks "run" →
      ∃ e, (calculate_run_progression c).result = .error e) ∧
    (∀ (c : FitnessProgressionCalculator) (exercise : String),
      c.timeline_weeks ≤ c.buffer_weeks exercise →
      ∃ e, calculate_strength_progression c exercise = .error e) ∧
    (∀ (eng : WorkoutProgressionEngine) (day : String) (week : ℕ)
      (wts : WorkoutTimes),
      eng.training_config.workout_times = some wts →
      normalize_day_name day ∈ eng.training_config.schedule.workout_days →
      wts.workout_days = none →
      ∃ e, get_workout_for_day eng day week none = .error e) ∧
    (∀ (eng : WorkoutProgressionEngine) (day : String) (week : ℕ)
      (wts : WorkoutTimes),
      eng.training_config.workout_times = some wts →
      normalize_day_name day ∉ eng.training_config.schedule.workout_days →
      normalize_day_name day ∈ eng.training_config.schedule.strength_days →
      wts.strength_days = none →
      ∃ e, get_workout_for_day eng day week none = .error e) ∧
    (∀ (eng : WorkoutProgressionEngine) (day : String) (week : ℕ)
      (wts : WorkoutTimes),
      eng.training_config.workout_times = some wts →
      normalize_day_name day ∉ eng.training_config.schedule.workout_days →
      normalize_day_name day ∉ eng.training_config.schedule.strength_days →
      normalize_day_name day ∈ eng.training_config.schedule.rest_days →
      normalize_day_name day = "Sat" →
      wts.easy_days = none →
      ∃ e, get_workout_for_day eng day week none = .error e) ∧
    (∀ (eng : WorkoutProgressionEngine) (day : String) (week : ℕ)
      (wt : String),
      wt ≠ "" →
      workoutTypesLookup eng.fitness_calculator wt = none →
      get_workout_for_day eng day week (some wt) =
        .error (.valueError ("Unknown workout type: " ++ wt))) ∧
    (∀ (c : FitnessProgressionCalculator) (exercise : String) (b g s : ℤ),
      c.fitness_config.baseline.repMetric exercise = some b →
      c.fitness_config.goals.repMetric exercise = some g →
      c.fitness_config.pfa_standards.repMetric exercise = some s →
      g < s →
      ∃ e, calculate_strength_progression c exercise = .error e) := by
  refine ⟨?_, ?_, ?_, ?_, ?_, ?_, ?_⟩
  · intro c hble
    unfold calculate_run_progression
    cases h1 : parse_time_to_seconds c.fitness_config.baseline.run_time with
    | none => exact ⟨_, rfl⟩
    | some b =>
      cases h2 : parse_time_to_seconds c.fitness_config.goals.run_time with
      | none => exact ⟨_, rfl⟩
      | some g =>
        cases h3 : parse_time_to_seconds c.fitness_config.pfa_standards.run_time with
        | none => exact ⟨_, rfl⟩
        | some s =>
          simp only []
          rw [if_pos hble]
          exact ⟨_, rfl⟩
  · intro c exercise hble
    unfold calculate_strength_progression
    cases h1 : c.fitness_config.baseline.repMetric exercise with
    | none => exact ⟨_, rfl⟩
    | some b =>
      cases h2 : c.fitness_config.goals.repMetric exercise with
      | none => exact ⟨_, rfl⟩
      | some g =>
        cases h3 : c.fitness_config.pfa_standards.repMetric exercise with
        | none => exact ⟨_, rfl⟩
        | some s =>
          simp only []
          by_cases hgs : g < s
          · rw [if_pos hgs]
            exact ⟨_, rfl⟩
          · rw [if_neg hgs, if_pos hble]
            exact ⟨_, rfl⟩
  · intro eng day week wts hwts hmem hnone
    have hcw : chooseWorkoutType eng day none =
        .proceed ((["run_intervals", "tempo_run", "pfa_circuit"] :
            List String).getD
          (eng.training_config.schedule.workout_days.indexOf
            (normalize_day_name day) % 3) "")
          (some (normalize_day_name day)) := by
      unfold chooseWorkoutType
      simp [hmem]
    obtain ⟨gen, hgen⟩ := rotation_lookup eng.fitness_calculator
      (eng.training_config.schedule.workout_days.indexOf (normalize_day_name day))
    unfold get_workout_for_day
    rw [hcw]
    simp only []
    rw [hgen]
    simp only []
    cases hg : gen week (get_weekly_volume_multiplier eng.fitness_calculator week
        eng.progression_config.adaptation_periods.frequency
        eng.progression_config.adaptation_periods.reduction) with
    | error e => exact ⟨e, rfl⟩
    | ok w0 =>
      rw [hwts]
      simp only []
      rw [if_pos hmem, hnone]
      exact ⟨_, rfl⟩
  · intro eng day week wts hwts hmem1 hmem2 hnone
    have hcw : chooseWorkoutType eng day none =
        .proceed "strength_core" (some (normalize_day_name day)) := by
      unfold chooseWorkoutType
      simp [hmem1, hmem2]
    unfold get_workout_for_day
    rw [hcw]
    simp only []
    rw [show workoutTypesLookup eng.fitness_calculator "strength_core" =
      some (generate_strength_core eng.fitness_calculator) from rfl]
    simp only []
    cases hg : generate_strength_core eng.fitness_calculator week
        (get_weekly_volume_multiplier eng.fitness_calculator week
          eng.progression_config.adaptation_periods.frequency
          eng.progression_config.adaptation_periods.reduction) with
    | error e => exact ⟨e, rfl⟩
    | ok w0 =>
      rw [hwts]
      simp only []
      rw [if_neg hmem1, if_pos hmem2, hnone]
      exact ⟨_, rfl⟩
  · intro eng day week wts hwts hmem1 hmem2 hmem3 hsat hnone
    rw [hsat] at hmem1 hmem2 hmem3
    have hcw : chooseWorkoutType eng day none =
        .proceed "easy_run" (some "Sat") := by
      unfold chooseWorkoutType
      simp [hsat, hmem1, hmem2, hmem3]
    unfold get_workout_for_day
    rw [hcw]
    simp only []
    rw [show workoutTypesLookup eng.fitness_calculator "easy_run" =
      some (generate_easy_run eng.fitness_calculator) from rfl]
    simp only []
    cases hg : generate_easy_run eng.fitness_calculator week
        (get_weekly_volume_multiplier eng.fitness_calculator week
          eng.progression_config.adaptation_periods.frequency
          eng.progression_config.adaptation_periods.reduction) with
    | error e => exact ⟨e, rfl⟩
    | ok w0 =>
      rw [hwts]
      simp only []
      rw [if_neg hmem1, if_neg hmem2]
      simp only [if_true, hnone]
      exact ⟨_, rfl⟩
  · intro eng day week wt hne hlk
    unfold get_workout_for_day
    rw [chooseWorkoutType_some eng day wt hne]
    simp only []
    rw [hlk]
  · intro c exercise b g s h1 h2 h3 hgs
    unfold calculate_strength_progression
    rw [h1, h2, h3]
    simp only []
    rw [if_pos hgs]
    exact ⟨_, rfl⟩

/-- Example calculator with a consistent configuration. -/
def exCalcGood : FitnessProgressionCalculator :=
  ⟨⟨⟨"15:00", 20, 30⟩, ⟨"12:45", 50, 60⟩, ⟨"13:36", 33, 42⟩⟩, 16,
    fun _ => 4, false⟩

/-- Example calculator whose buffer weeks exceed the timeline. -/
def exCalcBadBuffer : FitnessProgressionCalculator :=
  ⟨⟨⟨"15:00", 20, 30⟩, ⟨"12:45", 50, 60⟩, ⟨"13:36", 33, 42⟩⟩, 4,
    fun _ => 6, false⟩

/-- Example calculator whose pushup goal is below the PFA standard. -/
def exCalcBadGoal : FitnessProgressionCalculator :=
  ⟨⟨⟨"15:00", 20, 30⟩, ⟨"12:45", 20, 60⟩, ⟨"13:36", 33, 42⟩⟩, 16,
    fun _ => 4, false⟩

/-- Example training schedule. -/
def exSchedule : Schedule := ⟨["Mon", "Wed", "Fri"], ["Tue", "Thu"], ["Sat", "Sun"]⟩

/-- Engine whose `workout_times` lacks the `workout_days` entry. -/
def exEngMissingWorkoutTime : WorkoutProgressionEngine :=
  ⟨⟨exSchedule, some ⟨none, some "07:00", some "08:00"⟩⟩, ⟨⟨4, 7/10⟩⟩, exCalcGood⟩

/-- Engine whose `workout_times` lacks the `strength_days` entry. -/
def exEngMissingStrengthTime : WorkoutProgressionEngine :=
  ⟨⟨exSchedule, some ⟨some "06:00", none, some "08:00"⟩⟩, ⟨⟨4, 7/10⟩⟩, exCalcGood⟩

/-- Engine whose `workout_times` lacks the `easy_days` entry. -/
def exEngMissingEasyTime : WorkoutProgressionEngine :=
  ⟨⟨exSchedule, some ⟨some "06:00", some "07:00", none⟩⟩, ⟨⟨4, 7/10⟩⟩, exCalcGood⟩

/-- Engine with a complete `workout_times` section. -/
def exEngGood : WorkoutProgressionEngine :=
  ⟨⟨exSchedule, some ⟨some "06:00", some "07:00", some "08:00"⟩⟩, ⟨⟨4, 7/10⟩⟩, exCalcGood⟩

/-- Witness for C5 at concrete inputs: each of the four conditions on a
concrete configuration produces a raised error. -/
theorem c5_config_errors_raise_witness :
    (∃ e, (calculate_run_progression exCalcBadBuffer).result = .error e) ∧
    (∃ e, calculate_strength_progression exCalcBadBuffer "pushups" = .error e) ∧
    (∃ e, get_workout_for_day exEngMissingWorkoutTime "Monday" 0 none = .error e) ∧
    (∃ e, get_workout_for_day exEngMissingStrengthTime "Tuesday" 0 none = .error e) ∧
    (∃ e, get_workout_for_day exEngMissingEasyTime "Saturday" 0 none = .error e) ∧
    (get_workout_for_day exEngGood "Monday" 0 (some "yoga") =
      .error (.valueError ("Unknown workout type: " ++ "yoga"))) ∧
    (∃ e, calculate_strength_progression exCalcBadGoal "pushups" = .error e) := by
  refine ⟨?_, ?_, ?_, ?_, ?_, ?_, ?_⟩
  · exact c5_config_errors_raise.1 exCalcBadBuffer (by decide)
  · exact c5_config_errors_raise.2.1 exCalcBadBuffer "pushups" (by decide)
  · exact c5_config_errors_raise.2.2.1 exEngMissingWorkoutTime "Monday" 0
      ⟨none, some "07:00", some "08:00"⟩ rfl (by decide) rfl
  · exact c5_config_errors_raise.2.2.2.1 exEngMissingStrengthTime "Tuesday" 0
      ⟨some "06:00", none, some "08:00"⟩ rfl (by decide) (by decide) rfl
  · exact c5_config_errors_raise.2.2.2.2.1 exEngMissingEasyTime "Saturday" 0
      ⟨some "06:00", some "07:00", none⟩ rfl (by decide) (by decide) (by decide)
      rfl rfl
  · exact c5_config_errors_raise.2.2.2.2.2.1 exEngGood "Monday" 0 "yoga"
      (by decide) rfl
  · exact c5_config_errors_raise.2.2.2.2.2.2 exCalcBadGoal "pushups" 20 20 33
      rfl rfl rfl (by decide)

/-- Witness for C10: passing `"run_intervals"` explicitly never yields a
successful workout. -/
theorem c10_explicit_workout_type_never_returns_witness :
    get_workout_for_day exEngGood "Monday" 0 (some "run_intervals") ≠
      .ok { type := "rest" } :=
  c10_explicit_workout_type_never_returns.1 exEngGood "Monday" 0
    "run_intervals" (generate_run_intervals exCalcGood) rfl { type := "rest" }

/-!
## Supplement scheduler (`src/supplement_scheduler.py`)
-/

/-- Python `pat in hay` on strings: substring test. -/
def strContains (hay pat : String) : Bool := decide (pat.data <:+: hay.data)

/-- One entry of a daily supplement schedule.  `datetime.time` values are
modelled by their minutes-since-midnight (the code compares times only
through `time_to_minutes`). -/
structure SupplementEntry where
  time : ℕ
  name : String
  dose : String
  type : String
  category : String
  condition : Option String := none
deriving DecidableEq, Repr

/-- Default entry used with `List.getD` (Python list indexing is only
performed at in-range indices). -/
def defaultEntry : SupplementEntry := ⟨0, "", "", "", "", none⟩

/-- The fixed `self.interactions` table built in `__init__`:
substance → (avoid_with, min_separation_hours), in dictionary order. -/
def interactions : List (String × List String × ℕ) :=
  [("caffeine", ["magnesium", "calcium"], 2),
   ("iron", ["calcium", "zinc", "magnesium"], 2),
   ("calcium", ["iron", "zinc", "magnesium"], 2),
   ("zinc", ["calcium", "iron", "copper"], 2)]

/-- A conflict warning record.  The `issue` and `current_separation`
display strings are carried as their numeric content
(`min_separation_hours` and the separation in minutes). -/
structure InteractionWarning where
  supplement1 : String
  supplement2 : String
  time1 : ℕ
  time2 : ℕ
  min_separation_hours : ℕ
  current_separation : ℕ
deriving DecidableEq, Repr

/-- The warnings produced for one ordered pair in
`SupplementScheduler.check_interactions`: every interaction-table row
whose substance occurs in the first name (lowercased) contributes one
warning per `avoid_with` substance occurring in the second name, when the
absolute time separation is below the rule's minimum. -/
def pairWarnings (supp1 supp2 : SupplementEntry) : List InteractionWarning :=
  interactions.flatMap fun rule =>
    if strContains supp1.name.toLower rule.1 then
      rule.2.1.filterMap fun avoid_supp =>
        if strContains supp2.name.toLower avoid_supp then
          let time_diff := ((supp1.time : ℤ) - (supp2.time : ℤ)).natAbs
          if time_diff < rule.2.2 * 60 then
            some ⟨supp1.name, supp2.name, supp1.time, supp2.time,
              rule.2.2, time_diff⟩
          else none
        else none
    else []

/-- `SupplementScheduler.check_interactions`: scan all unordered pairs
`(i, j)` with `i < j` in order. -/
def check_interactions : List SupplementEntry → List InteractionWarning
  | [] => []
  | supp1 :: rest => rest.flatMap (pairWarnings supp1) ++ check_interactions rest

/-- The body of the per-warning loop of
`SupplementScheduler.optimize_timing`: find the first entry of type
`daily` whose name equals the warning's `supplement1`, move it 2 hours
later (wrapping modulo 24 hours), and stop. -/
def shiftFirstDaily (name : String) : List SupplementEntry → List SupplementEntry
  | [] => []
  | supp :: rest =>
    if supp.name = name ∧ supp.type = "daily" then
      { supp with time := (supp.time + 120) % (24 * 60) } :: rest
    else supp :: shiftFirstDaily name rest

/-- `SupplementScheduler.optimize_timing`: detect warnings on the input
schedule, then greedily apply one shift per warning. -/
def optimize_timing (supplements : List SupplementEntry) : List SupplementEntry :=
  (check_interactions supplements).foldl
    (fun optimized warning => shiftFirstDaily warning.supplement1 optimized)
    supplements

section SchedulerLemmas

theorem shiftFirstDaily_length (name : String) (l : List SupplementEntry) :
    (shiftFirstDaily name l).length = l.length := by
  induction l with
  | nil => rfl
  | cons s rest ih =>
    unfold shiftFirstDaily
    split
    · simp
    · simp [ih]

theorem shiftFirstDaily_type_preserved (name : String) (l : List SupplementEntry)
    (j : ℕ) (hj : j < l.length)
    (hty : (l.getD j defaultEntry).type ≠ "daily") :
    (shiftFirstDaily name l).getD j defaultEntry = l.getD j defaultEntry := by
  induction l generalizing j with
  | nil => simp at hj
  | cons s rest ih =>
    unfold shiftFirstDaily
    split
    · next h =>
      cases j with
      | zero =>
        exact absurd h.2 (by simpa using hty)
      | succ j => simp
    · next h =>
      cases j with
      | zero => simp
      | succ j =>
        simp only [List.getD_cons_succ] at hty ⊢
        exact ih j (by simpa using hj) hty

theorem shiftFirstDaily_changed (name : String) (l : List SupplementEntry)
    (j : ℕ) (hj : j < l.length)
    (hch : (shiftFirstDaily name l).getD j defaultEntry ≠ l.getD j defaultEntry) :
    (l.getD j defaultEntry).name = name ∧
    (l.getD j defaultEntry).type = "daily" ∧
    (shiftFirstDaily name l).getD j defaultEntry =
      { l.getD j defaultEntry with
        time := ((l.getD j defaultEntry).time + 120) % (24 * 60) } ∧
    ∀ k, k < j →
      ¬ ((l.getD k defaultEntry).name = name ∧
         (l.getD k defaultEntry).type = "daily") := by
  induction l generalizing j with
  | nil => simp at hj
  | cons s rest ih =>
    unfold shiftFirstDaily at hch ⊢
    split at hch
    · next h =>
      cases j with
      | zero =>
        refine ⟨h.1, h.2, ?_, ?_⟩
        · rw [if_pos h]
          simp
        · intro k hk
          omega
      | succ j => simp at hch
    · next h =>
      cases j with
      | zero => simp at hch
      | succ j =>
        simp only [List.getD_cons_succ] at hch ⊢
        obtain ⟨h1, h2, h3, h4⟩ := ih j (by simpa using hj) hch
        refine ⟨h1, h2, ?_, ?_⟩
        · rw [if_neg h]
          simpa using h3
        · intro k hk
          cases k with
          | zero => simpa using h
          | succ k =>
            simp only [List.getD_cons_succ]
            exact h4 k (by omega)

theorem optimize_foldl_preserves (ws : List InteractionWarning)
    (l : List SupplementEntry) (j : ℕ) (hj : j < l.length)
    (hty : (l.getD j defaultEntry).type ≠ "daily") :
    (ws.foldl (fun optimized w => shiftFirstDaily w.supplement1 optimized) l).getD
      j defaultEntry = l.getD j defaultEntry := by
  induction ws generalizing l with
  | nil => rfl
  | cons w ws ih =>
    simp only [List.foldl_cons]
    have hlen : j < (shiftFirstDaily w.supplement1 l).length := by
      rw [shiftFirstDaily_length]
      exact hj
    have hstep := shiftFirstDaily_type_preserved w.supplement1 l j hj hty
    rw [ih (shiftFirstDaily w.supplement1 l) hlen (by rw [hstep]; exact hty), hstep]

end SchedulerLemmas

/-- C6: for every input schedule and every detected warning, the
per-warning step of `optimize_timing` re-times at most one entry — the
first entry of type `daily` whose name equals the warning's `supplement1`,
shifted forward by exactly 120 minutes modulo 24 hours — and the times of
all entries of type `pre_workout` or `post_workout` are unchanged by the
whole optimization pass. -/
theorem c6_optimize_timing_frame :
    (∀ (supplements : List SupplementEntry) (name : String),
      (shiftFirstDaily name supplements).length = supplements.length ∧
      (∀ j, j < supplements.length →
        (shiftFirstDaily name supplements).getD j defaultEntry ≠
          supplements.getD j defaultEntry →
        ((supplements.getD j defaultEntry).name = name ∧
         (supplements.getD j defaultEntry).type = "daily" ∧
         (shiftFirstDaily name supplements).getD j defaultEntry =
           { supplements.getD j defaultEntry with
             time := ((supplements.getD j defaultEntry).time + 120) % (24 * 60) } ∧
         ∀ k, k < j →
           ¬ ((supplements.getD k defaultEntry).name = name ∧
              (supplements.getD k defaultEntry).type = "daily"))) ∧
      (∀ j1 j2, j1 < supplements.length → j2 < supplements.length →
        (shiftFirstDaily name supplements).getD j1 defaultEntry ≠
          supplements.getD j1 defaultEntry →
        (shiftFirstDaily name supplements).getD j2 defaultEntry ≠
          supplements.getD j2 defaultEntry →
        j1 = j2)) ∧
    (∀ (supplements : List SupplementEntry) (j : ℕ),
      j < supplements.length →
      ((supplements.getD j defaultEntry).type = "pre_workout" ∨
       (supplements.getD j defaultEntry).type = "post_workout") →
      (optimize_timing supplements).getD j defaultEntry =
        supplements.getD j defaultEntry) := by
  constructor
  · intro supplements name
    refine ⟨shiftFirstDaily_length name supplements, ?_, ?_⟩
    · intro j hj hch
      exact shiftFirstDaily_changed name supplements j hj hch
    · intro j1 j2 hj1 hj2 hch1 hch2
      by_contra hne
      rcases Nat.lt_or_ge j1 j2 with hlt | hge
      · obtain ⟨h1, h2, _, _⟩ := shiftFirstDaily_changed name supplements j1 hj1 hch1
        obtain ⟨_, _, _, h4⟩ := shiftFirstDaily_changed name supplements j2 hj2 hch2
        exact h4 j1 hlt ⟨h1, h2⟩
      · have hlt : j2 < j1 := by omega
        obtain ⟨h1, h2, _, _⟩ := shiftFirstDaily_changed name supplements j2 hj2 hch2
        obtain ⟨_, _, _, h4⟩ := shiftFirstDaily_changed name supplements j1 hj1 hch1
        exact h4 j2 hlt ⟨h1, h2⟩
  · intro supplements j hj hty
    unfold optimize_timing
    apply optimize_foldl_preserves
    · exact hj
    · rcases hty with h | h <;> rw [h] <;> decide

/-- Witness for C6: a pre-workout caffeine dose at 06:45 conflicting with
a daily magnesium dose at 08:00; the pre-workout entry is untouched by
the optimization pass. -/
theorem c6_optimize_timing_frame_witness :
    (optimize_timing
      [⟨405, "Caffeine", "100mg", "pre_workout", "performance", none⟩,
       ⟨480, "Magnesium", "200mg", "daily", "maintenance", none⟩]).getD 0
        defaultEntry =
      ([⟨405, "Caffeine", "100mg", "pre_workout", "performance", none⟩,
        ⟨480, "Magnesium", "200mg", "daily", "maintenance", none⟩] :
          List SupplementEntry).getD 0 defaultEntry :=
  c6_optimize_timing_frame.2
    [⟨405, "Caffeine", "100mg", "pre_workout", "performance", none⟩,
     ⟨480, "Magnesium", "200mg", "daily", "maintenance", none⟩]
    0 (by decide) (Or.inl (by decide))

/-!
## Meal generator (`src/meal_generator.py`)

The generator's calls into Python's global `random` are modelled by a
draw stream `g : ℕ → ℕ` and a cursor `k` threaded through the
computation; `random.choice xs` with draw `r` picks `xs[r % len xs]`,
`random.randint(1, 2)` with draw `r` is `1 + r % 2`, and `random.sample`
repeatedly picks-and-removes. The unused `variety_rules` /
`recent_combinations` state and the fetch-query construction (whose
result is the external fetcher's response, passed here as the `fetched`
parameter) are not modelled.
-/

/-- A food item of the structured meal database; absent optional keys
are their `dict.get` defaults. -/
structure FoodItem where
  name : String
  meal_types : List String := []
  exclusions : List String := []
  tags : List String := []
  calories : ℚ := 0
  protein : ℚ := 0
  carbs : ℚ := 0
  fat : ℚ := 0
  prep_time : ℚ := 0
  portion : String := ""
deriving DecidableEq, Repr

/-- Macro totals of a selection (`_calculate_totals` result shape). -/
structure Totals where
  calories : ℚ
  protein : ℚ
  carbs : ℚ
  fat : ℚ
deriving DecidableEq, Repr

/-- A per-meal-type combination rule; absent keys are their `dict.get`
defaults. -/
structure CombinationRule where
  min_protein : ℚ := 0
  target_calories : ℚ × ℚ := (0, 10000)
  required_components : List String := []
  optional_components : List String := []
  weekend_preference : List String := []
deriving DecidableEq, Repr

/-- An externally fetched recipe (`recipe_fetcher.Recipe`); `nutrition`
is read only through `.get(key, 0)`, so it is carried as totals, and
`recipe.tags or []` collapses a missing tag list to `[]`. -/
structure Recipe where
  id : String
  name : String
  ingredients : List String
  instructions : List String
  prep_time : ℚ
  cook_time : ℚ
  total_time : ℚ
  servings : ℕ
  nutrition : Totals
  tags : List String
  source_api : String
  source_url : String
  difficulty : String
deriving DecidableEq, Repr

/-- `recipe_tags` filtering configuration. -/
structure TagFilters where
  include_tags : List String := []
  exclude_tags : List String := []
deriving DecidableEq, Repr

/-- A generated meal option dictionary; recipe-only display keys are
`none` on component options and vice versa. -/
structure MealOption where
  description : String
  type : String
  items : List FoodItem
  totals : Totals
  prep_time : ℚ
  recipe : Option Recipe := none
  recipe_id : Option String := none
  ingredients_display : Option String := none
  instructions_preview : Option String := none
  servings : Option ℕ := none
  source : Option String := none
deriving DecidableEq, Repr

/-- Default option used with `List.getD` at in-range indices. -/
def defaultMealOption : MealOption :=
  ⟨"", "", [], ⟨0, 0, 0, 0⟩, 0, none, none, none, none, none, none⟩

/-- `MealGenerator.__init__` state.  `has_recipe_fetcher` is
`self.recipe_fetcher is not None` (a recipe configuration was given). -/
structure MealGenerator where
  meal_database : List (String × List FoodItem)
  options_per_meal : ℤ
  combination_rules : List (String × CombinationRule)
  recipe_ratio : ℚ
  enable_recipes : Bool
  has_recipe_fetcher : Bool
  max_recipes_per_meal : ℕ
  tag_filters : TagFilters

/-- The name normalization used by exclusion checking and weekend
preferences: lowercase, spaces to underscores, parentheses dropped. -/
def normalizeName (s : String) : String :=
  ((s.toLower.replace " " "_").replace "(" "").replace ")" ""

/-- `MealGenerator._get_items_by_component`. -/
def get_items_by_component (gen : MealGenerator) (component meal_type : String) :
    List FoodItem :=
  match gen.meal_database.lookup component with
  | none => []
  | some items => items.filter fun item => item.meal_types.contains meal_type

/-- `MealGenerator._check_exclusions`: no selected item's exclusion set
intersects the normalized names of the selection. -/
def check_exclusions (selected_items : List FoodItem) : Bool :=
  let item_names := selected_items.map fun item => normalizeName item.name
  selected_items.all fun item =>
    !(item.exclusions.any fun e => item_names.contains e)

/-- `MealGenerator._calculate_totals`. -/
def calculate_totals (selected_items : List FoodItem) : Totals :=
  ⟨(selected_items.map (fun i => i.calories)).sum,
   (selected_items.map (fun i => i.protein)).sum,
   (selected_items.map (fun i => i.carbs)).sum,
   (selected_items.map (fun i => i.fat)).sum⟩

/-- `MealGenerator._meets_requirements`. -/
def meets_requirements (gen : MealGenerator) (selected_items : List FoodItem)
    (meal_type : String) : Bool :=
  match gen.combination_rules.lookup meal_type with
  | none => true
  | some rules =>
    let totals := calculate_totals selected_items
    if totals.protein < rules.min_protein then false
    else if ¬ (rules.target_calories.1 ≤ totals.calories ∧
        totals.calories ≤ rules.target_calories.2) then false
    else true

/-- `MealGenerator._format_meal_description`. -/
def format_meal_description (selected_items : List FoodItem) : String :=
  String.intercalate " + " (selected_items.map fun item =>
    if item.portion ≠ "" then item.name ++ " (" ++ item.portion ++ ")"
    else item.name)

/-- `MealGenerator._apply_weekend_preferences`. -/
def apply_weekend_preferences (gen : MealGenerator) (items : List FoodItem)
    (meal_type : String) (is_weekend : Bool) : List FoodItem :=
  if !is_weekend then items
  else
    match gen.combination_rules.lookup meal_type with
    | none => items
    | some rules =>
      let weekend_prefs := rules.weekend_preference
      if weekend_prefs = [] then items
      else
        let p := items.partition fun item =>
          let item_name_key := normalizeName item.name
          weekend_prefs.any fun pref =>
            strContains item_name_key pref || item.tags.contains pref
        p.1 ++ p.2

/-- `random.choice xs` with raw draw `r`; `none` exactly when the list is
empty (the call sites guard on non-emptiness). -/
def pyChoice {α : Type} (xs : List α) (r : ℕ) : Option α := xs[r % xs.length]?

/-- `random.sample(population, n)` with the draw stream: pick an index,
remove, repeat. -/
def pySample {α : Type} (g : ℕ → ℕ) : ℕ → List α → ℕ → List α × ℕ
  | 0, _, k => ([], k)
  | n + 1, population, k =>
    match population[g k % population.length]? with
    | none => ([], k + 1)
    | some x =>
      let rest := pySample g n (population.eraseIdx (g k % population.length)) (k + 1)
      (x :: rest.1, rest.2)

/-- One component-selection step (the shared body of the required and
optional loops, lines 165-179 and 188-201, which are identical): fetch
the component's items, reorder for weekends, keep those not triggering
exclusions, and pick one at random; the third component reports whether
an item was added (used for `used_components`). -/
def selectComponentItem (gen : MealGenerator) (meal_type : String)
    (is_weekend : Bool) (selected_items : List FoodItem) (component : String)
    (g : ℕ → ℕ) (k : ℕ) : List FoodItem × ℕ × Bool :=
  let available_items := get_items_by_component gen component meal_type
  let available_items := apply_weekend_preferences gen available_items meal_type is_weekend
  if available_items = [] then (selected_items, k, false)
  else
    let valid_items := available_items.filter fun item =>
      check_exclusions (selected_items ++ [item])
    match pyChoice valid_items (g k) with
    | none => (selected_items, k, false)
    | some item => (selected_items ++ [item], k + 1, true)

/-- The required-components loop of `_generate_component_meal_options`. -/
def selectRequired (gen : MealGenerator) (meal_type : String)
    (is_weekend : Bool) (g : ℕ → ℕ) :
    List String → List FoodItem → List String → ℕ →
      List FoodItem × List String × ℕ
  | [], selected, used, k => (selected, used, k)
  | component :: comps, selected, used, k =>
    match selectComponentItem gen meal_type is_weekend selected component g k with
    | (selected', k', added) =>
      let used' := if added then used ++ [component] else used
      selectRequired gen meal_type is_weekend g comps selected' used' k'

/-- The loop over the chosen optional components. -/
def selectOptionalLoop (gen : MealGenerator) (meal_type : String)
    (is_weekend : Bool) (g : ℕ → ℕ) :
    List String → List FoodItem → ℕ → List FoodItem × ℕ
  | [], selected, k => (selected, k)
  | component :: comps, selected, k =>
    match selectComponentItem gen meal_type is_weekend selected component g k with
    | (selected', k', _) =>
      selectOptionalLoop gen meal_type is_weekend g comps selected' k'

/-- The optional-components phase: `random.randint(1, 2)` of them
(capped by availability), sampled without replacement. -/
def optionalPhase (gen : MealGenerator) (meal_type : String)
    (is_weekend : Bool) (g : ℕ → ℕ) (rule : CombinationRule)
    (used_components : List String) (selected_items : List FoodItem) (k : ℕ) :
    List FoodItem × ℕ :=
  let available_optional := rule.optional_components.filter fun comp =>
    !(used_components.contains comp)
  let num_optional := min (1 + g k % 2) available_optional.length
  let k := k + 1
  if available_optional ≠ [] ∧ 0 < num_optional then
    match pySample g num_optional available_optional k with
    | (chosen_optional, k') =>
      selectOptionalLoop gen meal_type is_weekend g chosen_optional selected_items k'
  else (selected_items, k)

/-- Accept the selection when nonempty and meeting the requirements,
building the meal-option dictionary. -/
def finishAttempt (gen : MealGenerator) (meal_type : String)
    (selected_items : List FoodItem) (k : ℕ) : Option MealOption × ℕ :=
  if selected_items ≠ [] ∧ meets_requirements gen selected_items meal_type = true then
    (some { description := format_meal_description selected_items,
            type := "component_only",
            items := selected_items,
            totals := calculate_totals selected_items,
            prep_time := (selected_items.map fun i => i.prep_time).sum }, k)
  else (none, k)

/-- One iteration of the `while` loop of
`_generate_component_meal_options` (one attempt). -/
def attemptOnce (gen : MealGenerator) (meal_type : String) (is_weekend : Bool)
    (rule : CombinationRule) (g : ℕ → ℕ) (k : ℕ) : Option MealOption × ℕ :=
  match selectRequired gen meal_type is_weekend g rule.required_components [] [] k with
  | (selected_items, used_components, k) =>
    match optionalPhase gen meal_type is_weekend g rule used_components selected_items k with
    | (selected_items, k) => finishAttempt gen meal_type selected_items k

/-- The near-duplicate test of lines 218-227: item-name-set overlap ratio
`|intersection| / max(|A|, |B|)` strictly above one half. -/
def overlapTooHigh (a b : List FoodItem) : Bool :=
  let existing_items := (a.map fun i => i.name).toFinset
  let current_items := (b.map fun i => i.name).toFinset
  let overlap := (existing_items ∩ current_items).card
  decide (((overlap : ℚ) / (max existing_items.card current_items.card : ℚ)) > 1/2)

/-- `selected_items` is too similar to one of the accepted options. -/
def isDuplicateOf (meal_options : List MealOption)
    (selected_items : List FoodItem) : Bool :=
  meal_options.any fun existing_option =>
    overlapTooHigh existing_option.items selected_items

/-- The `while len(meal_options) < num_options and attempts < 100` loop,
with `fuel` the remaining attempts. -/
def generateLoop (gen : MealGenerator) (meal_type : String)
    (rule : CombinationRule) (num_options : ℤ) (is_weekend : Bool)
    (g : ℕ → ℕ) : ℕ → ℕ → List MealOption → List MealOption × ℕ
  | 0, k, meal_options => (meal_options, k)
  | fuel + 1, k, meal_options =>
    if (meal_options.length : ℤ) < num_options then
      match attemptOnce gen meal_type is_weekend rule g k with
      | (cand, k') =>
        let meal_options' :=
          match cand with
          | some opt =>
            if isDuplicateOf meal_options opt.items then meal_options
            else meal_options ++ [opt]
          | none => meal_options
        generateLoop gen meal_type rule num_options is_weekend g fuel k' meal_options'
    else (meal_options, k)

/-- `MealGenerator._generate_component_meal_options` (also returning the
advanced draw cursor). -/
def generate_component_meal_options (gen : MealGenerator)
    (meal_type day : String) (num_options? : Option ℤ) (g : ℕ → ℕ) (k : ℕ) :
    List MealOption × ℕ :=
  let num_options := num_options?.getD gen.options_per_meal
  let is_weekend := (["Saturday", "Sunday"] : List String).contains day
  match gen.combination_rules.lookup meal_type with
  | none => ([], k)
  | some rule =>
    generateLoop gen meal_type rule num_options is_weekend g 100 k []

/-- `MealGenerator._meets_recipe_requirements`. -/
def meets_recipe_requirements (gen : MealGenerator) (recipe : Recipe)
    (meal_type : String) : Bool :=
  match gen.combination_rules.lookup meal_type with
  | none => true
  | some rules =>
    if recipe.nutrition.protein < rules.min_protein then false
    else if ¬ (rules.target_calories.1 ≤ recipe.nutrition.calories ∧
        recipe.nutrition.calories ≤ rules.target_calories.2) then false
    else true

/-- `MealGenerator._meets_tag_requirements`. -/
def meets_tag_requirements (gen : MealGenerator) (recipe : Recipe) : Bool :=
  let recipe_tags := recipe.tags
  let include_tags := gen.tag_filters.include_tags
  if include_tags ≠ [] ∧ ¬ include_tags.any (fun tag => recipe_tags.contains tag) then
    false
  else if gen.tag_filters.exclude_tags.any (fun tag => recipe_tags.contains tag) then
    false
  else true

/-- `MealGenerator._create_recipe_meal_option`. -/
def create_recipe_meal_option (recipe : Recipe) : MealOption :=
  let ingredients_text := String.intercalate "; " (recipe.ingredients.take 8)
  let ingredients_text :=
    if 8 < recipe.ingredients.length then
      ingredients_text ++ " (and " ++ natToString (recipe.ingredients.length - 8) ++
        " more)"
    else ingredients_text
  let instructions_text := String.intercalate ". " (recipe.instructions.take 3)
  let instructions_text :=
    if 3 < recipe.instructions.length then
      instructions_text ++ " (and " ++ natToString (recipe.instructions.length - 3) ++
        " more steps)"
    else instructions_text
  let description := recipe.name ++ " (Recipe)"
  let description :=
    if 1 < recipe.servings then
      description ++ " - Serves " ++ natToString recipe.servings
    else description
  { description := description,
    type := "recipe",
    recipe_id := some recipe.id,
    recipe := some recipe,
    totals := recipe.nutrition,
    prep_time := recipe.total_time,
    ingredients_display := some ingredients_text,
    instructions_preview := some instructions_text,
    servings := some recipe.servings,
    source := some ("Recipe from " ++ recipe.source_api),
    items := [] }

/-- `MealGenerator._get_recipes_for_meal`: the external fetch response is
the `fetched` parameter; the suitable ones are filtered by the nutrition
and tag rules, capped at `max_recipes_per_meal`. -/
def get_recipes_for_meal (gen : MealGenerator) (meal_type : String)
    (fetched : List Recipe) : List Recipe :=
  (fetched.filter fun recipe =>
    meets_recipe_requirements gen recipe meal_type &&
      meets_tag_requirements gen recipe).take gen.max_recipes_per_meal

/-- Python list slicing `l[:n]` (a negative bound drops from the end). -/
def pySliceTo {α : Type} (l : List α) (n : ℤ) : List α :=
  if n < 0 then l.take (l.length - (-n).toNat) else l.take n.toNat

/-- The recipe/component split of `generate_mixed_meal_options` line 378:
`min(self.max_recipes_per_meal, max(1, int(num_options * self.recipe_ratio)))`. -/
def mixedTargetRecipes (gen : MealGenerator) (num_options : ℤ) : ℤ :=
  min (gen.max_recipes_per_meal : ℤ)
    (max 1 (pyInt ((num_options : ℚ) * gen.recipe_ratio)))

/-- `MealGenerator.generate_mixed_meal_options`. -/
def generate_mixed_meal_options (gen : MealGenerator) (meal_type day : String)
    (num_options? : Option ℤ) (fetched : List Recipe) (g : ℕ → ℕ) (k : ℕ) :
    List MealOption × ℕ :=
  let num_options := num_options?.getD gen.options_per_meal
  let target_recipes := mixedTargetRecipes gen num_options
  match generate_component_meal_options gen meal_type day
      (some (num_options - target_recipes)) g k with
  | (component_meals, k) =>
    let meal_options := component_meals
    if gen.has_recipe_fetcher && gen.enable_recipes then
      let recipes := get_recipes_for_meal gen meal_type fetched
      let recipe_options := (pySliceTo recipes target_recipes).map
        create_recipe_meal_option
      let recipes_added : ℤ := recipe_options.length
      let meal_options := meal_options ++ recipe_options
      if recipes_added < target_recipes ∧
          (component_meals.length : ℤ) < num_options then
        match generate_component_meal_options gen meal_type day
            (some (num_options - meal_options.length)) g k with
        | (additional_components, k) =>
          (pySliceTo (meal_options ++ additional_components) num_options, k)
      else (pySliceTo meal_options num_options, k)
    else (pySliceTo meal_options num_options, k)

/-- `MealGenerator.generate_meal_options`: mixed when a recipe fetcher is
configured and recipes are enabled, component-only otherwise. -/
def generate_meal_options (gen : MealGenerator) (meal_type day : String)
    (num_options? : Option ℤ) (fetched : List Recipe) (g : ℕ → ℕ) (k : ℕ) :
    List MealOption × ℕ :=
  if gen.has_recipe_fetcher && gen.enable_recipes then
    generate_mixed_meal_options gen meal_type day num_options? fetched g k
  else
    generate_component_meal_options gen meal_type day num_options? g k

section MealLemmas

theorem generateLoop_zero (gen : MealGenerator) (mt : String)
    (rule : CombinationRule) (n : ℤ) (iw : Bool) (g : ℕ → ℕ) (k : ℕ)
    (acc : List MealOption) :
    generateLoop gen mt rule n iw g 0 k acc = (acc, k) := rfl

theorem generateLoop_succ (gen : MealGenerator) (mt : String)
    (rule : CombinationRule) (n : ℤ) (iw : Bool) (g : ℕ → ℕ) (fuel k : ℕ)
    (acc : List MealOption) :
    generateLoop gen mt rule n iw g (fuel + 1) k acc =
      if (acc.length : ℤ) < n then
        match attemptOnce gen mt iw rule g k with
        | (cand, k') =>
          generateLoop gen mt rule n iw g fuel k'
            (match cand with
             | some opt =>
               if isDuplicateOf acc opt.items then acc else acc ++ [opt]
             | none => acc)
      else (acc, k) := rfl

theorem meets_requirements_eq_true (gen : MealGenerator)
    (items : List FoodItem) (mt : String) (rule : CombinationRule)
    (hlk : gen.combination_rules.lookup mt = some rule)
    (h : meets_requirements gen items mt = true) :
    rule.min_protein ≤ (calculate_totals items).protein ∧
    rule.target_calories.1 ≤ (calculate_totals items).calories ∧
    (calculate_totals items).calories ≤ rule.target_calories.2 := by
  unfold meets_requirements at h
  rw [hlk] at h
  simp only [] at h
  split_ifs at h with h1 h2
  push_neg at h2
  exact ⟨not_lt.mp h1, h2.1, h2.2⟩

theorem meets_recipe_requirements_eq_true (gen : MealGenerator)
    (recipe : Recipe) (mt : String) (rule : CombinationRule)
    (hlk : gen.combination_rules.lookup mt = some rule)
    (h : meets_recipe_requirements gen recipe mt = true) :
    rule.min_protein ≤ recipe.nutrition.protein ∧
    rule.target_calories.1 ≤ recipe.nutrition.calories ∧
    recipe.nutrition.calories ≤ rule.target_calories.2 := by
  unfold meets_recipe_requirements at h
  rw [hlk] at h
  simp only [] at h
  split_ifs at h with h1 h2
  push_neg at h2
  exact ⟨not_lt.mp h1, h2.1, h2.2⟩

theorem finishAttempt_some (gen : MealGenerator) (mt : String)
    (sel : List FoodItem) (k : ℕ) (opt : MealOption) (k' : ℕ)
    (h : finishAttempt gen mt sel k = (some opt, k')) :
    opt.items = sel ∧ opt.totals = calculate_totals sel ∧
    opt.type = "component_only" ∧ meets_requirements gen sel mt = true := by
  unfold finishAttempt at h
  split_ifs at h with hcond
  · simp only [Prod.mk.injEq, Option.some.injEq] at h
    obtain ⟨h1, _⟩ := h
    subst h1
    exact ⟨rfl, rfl, rfl, hcond.2⟩
  · simp at h

theorem attemptOnce_some (gen : MealGenerator) (mt : String) (iw : Bool)
    (rule : CombinationRule) (g : ℕ → ℕ) (k : ℕ) (opt : MealOption) (k' : ℕ)
    (h : attemptOnce gen mt iw rule g k = (some opt, k')) :
    opt.totals = calculate_totals opt.items ∧ opt.type = "component_only" ∧
    meets_requirements gen opt.items mt = true := by
  unfold attemptOnce at h
  rcases hsel : selectRequired gen mt iw g rule.required_components [] [] k with
    ⟨s1, u1, k1⟩
  rw [hsel] at h
  simp only [] at h
  rcases hopt : optionalPhase gen mt iw g rule u1 s1 k1 with ⟨s2, k2⟩
  rw [hopt] at h
  simp only [] at h
  obtain ⟨hi, ht, hty, hm⟩ := finishAttempt_some gen mt s2 k2 opt k' h
  refine ⟨?_, hty, ?_⟩
  · rw [hi]
    exact ht
  · rw [hi]
    exact hm

theorem generateLoop_all (gen : MealGenerator) (mt : String)
    (rule : CombinationRule) (n : ℤ) (iw : Bool) (g : ℕ → ℕ)
    (P : MealOption → Prop)
    (hP : ∀ k opt k', attemptOnce gen mt iw rule g k = (some opt, k') → P opt) :
    ∀ (fuel k : ℕ) (acc : List MealOption), (∀ o ∈ acc, P o) →
      ∀ o ∈ (generateLoop gen mt rule n iw g fuel k acc).1, P o := by
  intro fuel
  induction fuel with
  | zero =>
    intro k acc hacc o ho
    rw [generateLoop_zero] at ho
    exact hacc o ho
  | succ fuel ih =>
    intro k acc hacc o ho
    rw [generateLoop_succ] at ho
    by_cases hlen : (acc.length : ℤ) < n
    · rw [if_pos hlen] at ho
      rcases hA : attemptOnce gen mt iw rule g k with ⟨cand, k'⟩
      rw [hA] at ho
      simp only [] at ho
      cases cand with
      | none => exact ih k' acc hacc o ho
      | some opt0 =>
        simp only [] at ho
        by_cases hdup : isDuplicateOf acc opt0.items
        · rw [if_pos hdup] at ho
          exact ih k' acc hacc o ho
        · rw [if_neg hdup] at ho
          refine ih k' (acc ++ [opt0]) ?_ o ho
          intro o' ho'
          rcases List.mem_append.mp ho' with hmem | hmem
          · exact hacc o' hmem
          · rw [List.mem_singleton] at hmem
            subst hmem
            exact hP k _ k' hA
    · rw [if_neg hlen] at ho
      exact hacc o ho

theorem generateLoop_pairwise (gen : MealGenerator) (mt : String)
    (rule : CombinationRule) (n : ℤ) (iw : Bool) (g : ℕ → ℕ) :
    ∀ (fuel k : ℕ) (acc : List MealOption),
      acc.Pairwise (fun a b => overlapTooHigh a.items b.items = false) →
      ((generateLoop gen mt rule n iw g fuel k acc).1).Pairwise
        (fun a b => overlapTooHigh a.items b.items = false) := by
  intro fuel
  induction fuel with
  | zero =>
    intro k acc hacc
    rw [generateLoop_zero]
    exact hacc
  | succ fuel ih =>
    intro k acc hacc
    rw [generateLoop_succ]
    by_cases hlen : (acc.length : ℤ) < n
    · rw [if_pos hlen]
      rcases hA : attemptOnce gen mt iw rule g k with ⟨cand, k'⟩
      simp only []
      cases cand with
      | none => exact ih k' acc hacc
      | some opt0 =>
        simp only []
        by_cases hdup : isDuplicateOf acc opt0.items
        · rw [if_pos hdup]
          exact ih k' acc hacc
        · rw [if_neg hdup]
          refine ih k' (acc ++ [opt0]) ?_
          rw [List.pairwise_append]
          refine ⟨hacc, List.pairwise_singleton _ _, ?_⟩
          intro a ha b hb
          rw [List.mem_singleton] at hb
          subst hb
          unfold isDuplicateOf at hdup
          rw [Bool.not_eq_true, List.any_eq_false] at hdup
          simpa using hdup a ha
    · rw [if_neg hlen]
      exact hacc

theorem mem_pySliceTo {α : Type} {l : List α} {n : ℤ} {x : α}
    (h : x ∈ pySliceTo l n) : x ∈ l := by
  unfold pySliceTo at h
  split_ifs at h <;> exact List.take_subset _ _ h

end MealLemmas

/-- C3 (amended): within a single component-generation call, the
near-duplicate suppression guarantees that no two returned options have
an item-name-set overlap ratio exceeding 0.5. -/
theorem c3_component_options_pairwise_low_overlap
    (gen : MealGenerator) (meal_type day : String) (num_options? : Option ℤ)
    (g : ℕ → ℕ) (k : ℕ) :
    ((generate_component_meal_options gen meal_type day num_options? g k).1).Pairwise
      (fun a b => overlapTooHigh a.items b.items = false) := by
  unfold generate_component_meal_options
  cases hlk : gen.combination_rules.lookup meal_type with
  | none => simp
  | some rule =>
    simp only []
    exact generateLoop_pairwise gen meal_type rule _ _ g 100 k [] (by simp)

theorem mixed_meal_options_mem (gen : MealGenerator) (mt day : String)
    (n? : Option ℤ) (fetched : List Recipe) (g : ℕ → ℕ) (k : ℕ) :
    ∀ o ∈ (generate_mixed_meal_options gen mt day n? fetched g k).1,
      (∃ m? k0, o ∈ (generate_component_meal_options gen mt day m? g k0).1) ∨
      (∃ t, o ∈ (pySliceTo (get_recipes_for_meal gen mt fetched) t).map
        create_recipe_meal_option) := by
  intro o ho
  unfold generate_mixed_meal_options at ho
  simp only [] at ho
  rcases hC : generate_component_meal_options gen mt day
      (some (n?.getD gen.options_per_meal -
        mixedTargetRecipes gen (n?.getD gen.options_per_meal))) g k with ⟨comp, k1⟩
  rw [hC] at ho
  simp only [] at ho
  split at ho
  · split at ho
    · have hmem := mem_pySliceTo ho
      rcases List.mem_append.mp hmem with hmem1 | hmem1
      · rcases List.mem_append.mp hmem1 with hmem2 | hmem2
        · exact Or.inl ⟨_, k, by rw [hC]; exact hmem2⟩
        · exact Or.inr ⟨_, hmem2⟩
      · exact Or.inl ⟨_, k1, hmem1⟩
    · have hmem := mem_pySliceTo ho
      rcases List.mem_append.mp hmem with hmem1 | hmem1
      · exact Or.inl ⟨_, k, by rw [hC]; exact hmem1⟩
      · exact Or.inr ⟨_, hmem1⟩
  · have hmem := mem_pySliceTo ho
    exact Or.inl ⟨_, k, by rw [hC]; exact hmem⟩

/-- C4: every meal option returned by `generate_meal_options`
(component-based or recipe-based, in either the component-only or the
mixed path) has total protein at least the meal type's configured
`min_protein` and total calories within the configured `target_calories`
range, bounds inclusive. -/
theorem c4_meal_options_meet_requirements
    (gen : MealGenerator) (meal_type day : String) (num_options? : Option ℤ)
    (fetched : List Recipe) (g : ℕ → ℕ) (k : ℕ) (rule : CombinationRule)
    (hlk : gen.combination_rules.lookup meal_type = some rule) :
    ∀ opt ∈ (generate_meal_options gen meal_type day num_options? fetched g k).1,
      rule.min_protein ≤ opt.totals.protein ∧
      rule.target_calories.1 ≤ opt.totals.calories ∧
      opt.totals.calories ≤ rule.target_calories.2 := by
  have hcomp : ∀ (m? : Option ℤ) (k0 : ℕ),
      ∀ o ∈ (generate_component_meal_options gen meal_type day m? g k0).1,
        rule.min_protein ≤ o.totals.protein ∧
        rule.target_calories.1 ≤ o.totals.calories ∧
        o.totals.calories ≤ rule.target_calories.2 := by
    intro m? k0 o ho
    unfold generate_component_meal_options at ho
    rw [hlk] at ho
    simp only [] at ho
    refine generateLoop_all gen meal_type rule (m?.getD gen.options_per_meal)
      ((["Saturday", "Sunday"] : List String).contains day) g
      (fun o => rule.min_protein ≤ o.totals.protein ∧
        rule.target_calories.1 ≤ o.totals.calories ∧
        o.totals.calories ≤ rule.target_calories.2) ?_ 100 k0 [] (by simp) o ho
    intro k1 opt0 k1' hA
    obtain ⟨ht, _, hm⟩ := attemptOnce_some gen meal_type _ rule g k1 opt0 k1' hA
    have hb := meets_requirements_eq_true gen opt0.items meal_type rule hlk hm
    rw [ht]
    exact hb
  have hrec : ∀ (t : ℤ),
      ∀ o ∈ (pySliceTo (get_recipes_for_meal gen meal_type fetched) t).map
        create_recipe_meal_option,
        rule.min_protein ≤ o.totals.protein ∧
        rule.target_calories.1 ≤ o.totals.calories ∧
        o.totals.calories ≤ rule.target_calories.2 := by
    intro t o ho
    obtain ⟨r, hr, rfl⟩ := List.mem_map.mp ho
    have hr1 : r ∈ get_recipes_for_meal gen meal_type fetched := mem_pySliceTo hr
    unfold get_recipes_for_meal at hr1
    have hr2 := List.take_subset _ _ hr1
    have hr3 := (List.mem_filter.mp hr2).2
    rw [Bool.and_eq_true] at hr3
    have hb := meets_recipe_requirements_eq_true gen r meal_type rule hlk hr3.1
    have htot : (create_recipe_meal_option r).totals = r.nutrition := by
      simp [create_recipe_meal_option]
    rw [htot]
    exact hb
  intro opt hopt
  unfold generate_meal_options at hopt
  by_cases hbr : gen.has_recipe_fetcher && gen.enable_recipes
  · rw [if_pos hbr] at hopt
    rcases mixed_meal_options_mem gen meal_type day num_options? fetched g k opt
        hopt with ⟨m?, k0, hmem⟩ | ⟨t, hmem⟩
    · exact hcomp m? k0 opt hmem
    · exact hrec t opt hmem
  · rw [if_neg hbr] at hopt
    exact hcomp num_options? k opt hopt

/-- Every option produced by component generation is a component option. -/
theorem component_options_type (gen : MealGenerator) (mt day : String)
    (m? : Option ℤ) (g : ℕ → ℕ) (k0 : ℕ) :
    ∀ o ∈ (generate_component_meal_options gen mt day m? g k0).1,
      o.type = "component_only" := by
  intro o ho
  unfold generate_component_meal_options at ho
  cases hlk : gen.combination_rules.lookup mt with
  | none =>
    rw [hlk] at ho
    simp at ho
  | some rule =>
    rw [hlk] at ho
    simp only [] at ho
    refine generateLoop_all gen mt rule (m?.getD gen.options_per_meal)
      ((["Saturday", "Sunday"] : List String).contains day) g
      (fun o => o.type = "component_only") ?_ 100 k0 [] (by simp) o ho
    intro k1 opt0 k1' hA
    exact (attemptOnce_some gen mt _ rule g k1 opt0 k1' hA).2.1

theorem mixedTargetRecipes_nonneg (gen : MealGenerator) (n : ℤ) :
    0 ≤ mixedTargetRecipes gen n :=
  le_min (Int.natCast_nonneg _)
    (le_trans (by norm_num) (le_max_left 1 (pyInt ((n : ℚ) * gen.recipe_ratio))))

theorem pySliceTo_length_le {α : Type} (l : List α) (n : ℤ) (hn : 0 ≤ n) :
    (pySliceTo l n).length ≤ n.toNat := by
  unfold pySliceTo
  rw [if_neg (not_lt.mpr hn)]
  rw [List.length_take]
  exact min_le_left _ _

theorem countP_pySliceTo_le {α : Type} (p : α → Bool) (l : List α) (n : ℤ) :
    (pySliceTo l n).countP p ≤ l.countP p := by
  unfold pySliceTo
  split <;> exact List.Sublist.countP_le p (List.take_sublist _ _)

/-- Modelled from the spec's words (C2): the target number of recipe
options as `min(max_recipes_per_meal, max(1, round(num_options *
recipe_ratio)))`, with Python banker's rounding. -/
def specTargetRecipesRound (gen : MealGenerator) (num_options : ℤ) : ℤ :=
  min (gen.max_recipes_per_meal : ℤ)
    (max 1 (pyRound ((num_options : ℚ) * gen.recipe_ratio)))

/-- C2 (amended): in mixed generation the target number of recipe options
is `min(max_recipes_per_meal, max(1, int(num_options * recipe_ratio)))`
where `int` truncates toward zero (not `round`), the target number of
component options is `num_options` minus that, and the returned list
contains at most `target_recipes` recipe options. -/
theorem c2_mixed_target_split (gen : MealGenerator) (meal_type day : String)
    (n : ℤ) (fetched : List Recipe) (g : ℕ → ℕ) (k : ℕ) :
    mixedTargetRecipes gen n =
      min (gen.max_recipes_per_meal : ℤ)
        (max 1 (pyInt ((n : ℚ) * gen.recipe_ratio))) ∧
    (generate_mixed_meal_options gen meal_type day (some n) fetched g k).1.countP
        (fun o => decide (o.type = "recipe")) ≤
      (mixedTargetRecipes gen n).toNat := by
  refine ⟨rfl, ?_⟩
  have hcount0 : ∀ (l : List MealOption), (∀ o ∈ l, o.type = "component_only") →
      l.countP (fun o => decide (o.type = "recipe")) = 0 := by
    intro l h
    rw [List.countP_eq_zero]
    intro a ha
    simp [h a ha]
  have hrlen : ((pySliceTo (get_recipes_for_meal gen meal_type fetched)
      (mixedTargetRecipes gen n)).map create_recipe_meal_option).countP
        (fun o => decide (o.type = "recipe")) ≤ (mixedTargetRecipes gen n).toNat := by
    calc ((pySliceTo (get_recipes_for_meal gen meal_type fetched)
        (mixedTargetRecipes gen n)).map create_recipe_meal_option).countP
          (fun o => decide (o.type = "recipe")) ≤
        ((pySliceTo (get_recipes_for_meal gen meal_type fetched)
          (mixedTargetRecipes gen n)).map create_recipe_meal_option).length :=
      List.countP_le_length _
    _ = (pySliceTo (get_recipes_for_meal gen meal_type fetched)
          (mixedTargetRecipes gen n)).length := List.length_map _ _
    _ ≤ (mixedTargetRecipes gen n).toNat :=
      pySliceTo_length_le _ _ (mixedTargetRecipes_nonneg gen n)
  unfold generate_mixed_meal_options
  simp only [Option.getD_some]
  rcases hC : generate_component_meal_options gen meal_type day
      (some (n - mixedTargetRecipes gen n)) g k with ⟨comp, k1⟩
  simp only []
  have hcompty : ∀ o ∈ comp, o.type = "component_only" := by
    intro o ho
    exact component_options_type gen meal_type day _ g k o (by rw [hC]; exact ho)
  split
  · split
    · calc (pySliceTo (comp ++
            (pySliceTo (get_recipes_for_meal gen meal_type fetched)
              (mixedTargetRecipes gen n)).map create_recipe_meal_option ++
            (generate_component_meal_options gen meal_type day
              (some (n - ((comp ++ (pySliceTo (get_recipes_for_meal gen meal_type
                fetched) (mixedTargetRecipes gen n)).map
                  create_recipe_meal_option) : List MealOption).length)) g k1).1)
            n).countP (fun o => decide (o.type = "recipe")) ≤ _ :=
        countP_pySliceTo_le _ _ n
      _ ≤ (mixedTargetRecipes gen n).toNat := by
        rw [List.countP_append, List.countP_append]
        rw [hcount0 comp hcompty,
          hcount0 _ (component_options_type gen meal_type day _ g k1)]
        simpa using hrlen
    · calc (pySliceTo (comp ++
            (pySliceTo (get_recipes_for_meal gen meal_type fetched)
              (mixedTargetRecipes gen n)).map create_recipe_meal_option)
            n).countP (fun o => decide (o.type = "recipe")) ≤ _ :=
        countP_pySliceTo_le _ _ n
      _ ≤ (mixedTargetRecipes gen n).toNat := by
        rw [List.countP_append, hcount0 comp hcompty]
        simpa using hrlen
  · calc (pySliceTo comp n).countP (fun o => decide (o.type = "recipe")) ≤ _ :=
      countP_pySliceTo_le _ _ n
    _ ≤ (mixedTargetRecipes gen n).toNat := by
      rw [hcount0 comp hcompty]
      exact Nat.zero_le _

/-- Example database item. -/
def exItemEggs : FoodItem :=
  { name := "Eggs", meal_types := ["breakfast"], calories := 140, protein := 12 }

/-- Example breakfast combination rule. -/
def exRuleBreakfast : CombinationRule :=
  { required_components := ["protein"], optional_components := [] }

/-- Example generator with recipes enabled (mixed path) over a one-item
database, default `recipe_ratio` 0.3 and `max_recipes_per_meal` 2. -/
def exGenMixed : MealGenerator :=
  { meal_database := [("protein", [exItemEggs])],
    options_per_meal := 3,
    combination_rules := [("breakfast", exRuleBreakfast)],
    recipe_ratio := 3/10,
    enable_recipes := true,
    has_recipe_fetcher := true,
    max_recipes_per_meal := 2,
    tag_filters := {} }

/-- The same generator with no recipe fetcher (component-only path). -/
def exGenComponent : MealGenerator :=
  { exGenMixed with has_recipe_fetcher := false }

section ConcreteEvaluations

attribute [local semireducible] Rat.mul Rat.inv Rat.add Rat.sub Rat.ofScientific

/-- Counterexample for C2: with `num_options = 5` and `recipe_ratio =
0.3`, the code's truncating `int(5 * 0.3) = 1` disagrees with the
claimed `round(5 * 0.3) = 2`: the code's target is 1, the claimed
formula gives 2. -/
theorem c2_counterexample_round_vs_int :
    mixedTargetRecipes exGenMixed 5 = 1 ∧
    specTargetRecipesRound exGenMixed 5 = 2 ∧
    mixedTargetRecipes exGenMixed 5 ≠ specTargetRecipesRound exGenMixed 5 := by
  refine ⟨by decide, by decide, by decide⟩

/-- Counterexample for C3: in the mixed path, when no recipes are
fetched the shortfall is backfilled by a second component-generation
call that does not deduplicate against the first, so the returned list
holds two identical one-item options — overlap ratio 1 > 0.5. -/
theorem c3_counterexample_mixed_duplicates :
    ((generate_meal_options exGenMixed "breakfast" "Monday" (some 2) []
      (fun _ => 0) 0).1).length = 2 ∧
    overlapTooHigh
      (((generate_meal_options exGenMixed "breakfast" "Monday" (some 2) []
        (fun _ => 0) 0).1).getD 0 defaultMealOption).items
      (((generate_meal_options exGenMixed "breakfast" "Monday" (some 2) []
        (fun _ => 0) 0).1).getD 1 defaultMealOption).items = true := by
  refine ⟨by decide, by decide⟩

/-- Witness for C4 at a concrete input: the single generated breakfast
option meets the (default) protein and calorie bounds. -/
theorem c4_meal_options_meet_requirements_witness :
    exRuleBreakfast.min_protein ≤
      (((generate_meal_options exGenComponent "breakfast" "Monday" (some 1) []
        (fun _ => 0) 0).1).getD 0 defaultMealOption).totals.protein ∧
    exRuleBreakfast.target_calories.1 ≤
      (((generate_meal_options exGenComponent "breakfast" "Monday" (some 1) []
        (fun _ => 0) 0).1).getD 0 defaultMealOption).totals.calories ∧
    (((generate_meal_options exGenComponent "breakfast" "Monday" (some 1) []
      (fun _ => 0) 0).1).getD 0 defaultMealOption).totals.calories ≤
      exRuleBreakfast.target_calories.2 :=
  c4_meal_options_meet_requirements exGenComponent "breakfast" "Monday" (some 1)
    [] (fun _ => 0) 0 exRuleBreakfast rfl
    (((generate_meal_options exGenComponent "breakfast" "Monday" (some 1) []
      (fun _ => 0) 0).1).getD 0 defaultMealOption) (by decide)

end ConcreteEvaluations
